import Mathlib

/-!
# Verification of the ArdKit VTX transport core

A shallow embedding, in Lean 4, of the parts of the VTX UDP video-transport
library that its specification makes checkable claims about:

* the wire codec of `src/vtx_packet.c` (CRC-16, header serialization,
  header validation, fragmentation helpers of `include/vtx_packet.h`),
* the frame buffer operations of `src/vtx_frame.c`
  (`vtx_frame_copyto`, fragment tracking),
* the receiver's reassembly step `vtx_handle_fragment` (vtx_rx.c),
* the retransmission scheduler `vtx_process_retrans_queue`
  (vtx_tx.c and vtx_rx.c), and
* the transmitter side of the connection handshake
  (`vtx_tx_accept` and the CONNECT/ACK cases of `vtx_recv`, vtx_tx.c).

C machine integers are modelled as `Nat` with explicit reductions
`% 2^8 / % 2^16 / % 2^32 / % 2^64` at the points where the C types truncate.
Byte buffers are `List Nat` with every element `< 256`.  Wall-clock reads
(`vtx_get_time_ms`) are lifted to an explicit `now` parameter, socket sends
are modelled as an emission log, and spinlocks/refcounts — which only
serialize the accesses modelled here — are erased.
-/

namespace VTX

/-! ## Wire-format constants (vtx_types.h / vtx_packet.h)

`vtx_packet_header_t` is packed: 4+2+1+1+2+2+2+2 = 16 bytes in the release
profile, so `VTX_PACKET_HEADER_SIZE = sizeof(vtx_packet_header_t) = 16`.
The CRC is computed over the first `VTX_CRC_OFFSET = 14` bytes (all fields
before `checksum`) and stored at bytes [14..16). -/

def VTX_PACKET_HEADER_SIZE : Nat := 16

def VTX_CRC_OFFSET : Nat := 14

def VTX_DEFAULT_MTU : Nat := 1400

/-- `VTX_MAX_PAYLOAD_SIZE = VTX_DEFAULT_MTU - VTX_PACKET_HEADER_SIZE` (vtx_packet.h). -/
def VTX_MAX_PAYLOAD_SIZE : Nat := VTX_DEFAULT_MTU - VTX_PACKET_HEADER_SIZE

/-- Frame-type enumerators (vtx_types.h). -/
def VTX_FRAME_I : Nat := 1
def VTX_FRAME_P : Nat := 2
def VTX_FRAME_SPS : Nat := 3
def VTX_FRAME_PPS : Nat := 4
def VTX_FRAME_A : Nat := 5
def VTX_DATA_CONNECT : Nat := 0x10
def VTX_DATA_CONNECTED : Nat := 0x11
def VTX_DATA_DISCONNECT : Nat := 0x12
def VTX_DATA_ACK : Nat := 0x13
def VTX_DATA_HEARTBEAT : Nat := 0x14
def VTX_DATA_USER : Nat := 0x15
def VTX_DATA_START : Nat := 0x16
def VTX_DATA_STOP : Nat := 0x17

def VTX_FLAG_LAST_FRAG : Nat := 1
def VTX_FLAG_RETRANS : Nat := 2

/-- Error codes (vtx_error.h). -/
def VTX_OK : Int := 0
def VTX_ERR_INVALID_PARAM : Int := -1
def VTX_ERR_NO_MEMORY : Int := -2
def VTX_ERR_OVERFLOW : Int := -10

/-! ## CRC-16 (vtx_packet.c)

`crc16_table` is the 256-entry table hard-coded in vtx_packet.c, transcribed
verbatim. -/

def crc16_table : List Nat := [
  0x0000,0x1021,0x2042,0x3063,0x4084,0x50a5,0x60c6,0x70e7,0x8108,0x9129,0xa14a,0xb16b,
  0xc18c,0xd1ad,0xe1ce,0xf1ef,0x1231,0x0210,0x3273,0x2252,0x52b5,0x4294,0x72f7,0x62d6,
  0x9339,0x8318,0xb37b,0xa35a,0xd3bd,0xc39c,0xf3ff,0xe3de,0x2462,0x3443,0x0420,0x1401,
  0x64e6,0x74c7,0x44a4,0x5485,0xa56a,0xb54b,0x8528,0x9509,0xe5ee,0xf5cf,0xc5ac,0xd58d,
  0x3653,0x2672,0x1611,0x0630,0x76d7,0x66f6,0x5695,0x46b4,0xb75b,0xa77a,0x9719,0x8738,
  0xf7df,0xe7fe,0xd79d,0xc7bc,0x48c4,0x58e5,0x6886,0x78a7,0x0840,0x1861,0x2802,0x3823,
  0xc9cc,0xd9ed,0xe98e,0xf9af,0x8948,0x9969,0xa90a,0xb92b,0x5af5,0x4ad4,0x7ab7,0x6a96,
  0x1a71,0x0a50,0x3a33,0x2a12,0xdbfd,0xcbdc,0xfbbf,0xeb9e,0x9b79,0x8b58,0xbb3b,0xab1a,
  0x6ca6,0x7c87,0x4ce4,0x5cc5,0x2c22,0x3c03,0x0c60,0x1c41,0xedae,0xfd8f,0xcdec,0xddcd,
  0xad2a,0xbd0b,0x8d68,0x9d49,0x7e97,0x6eb6,0x5ed5,0x4ef4,0x3e13,0x2e32,0x1e51,0x0e70,
  0xff9f,0xefbe,0xdfdd,0xcffc,0xbf1b,0xaf3a,0x9f59,0x8f78,0x9188,0x81a9,0xb1ca,0xa1eb,
  0xd10c,0xc12d,0xf14e,0xe16f,0x1080,0x00a1,0x30c2,0x20e3,0x5004,0x4025,0x7046,0x6067,
  0x83b9,0x9398,0xa3fb,0xb3da,0xc33d,0xd31c,0xe37f,0xf35e,0x02b1,0x1290,0x22f3,0x32d2,
  0x4235,0x5214,0x6277,0x7256,0xb5ea,0xa5cb,0x95a8,0x8589,0xf56e,0xe54f,0xd52c,0xc50d,
  0x34e2,0x24c3,0x14a0,0x0481,0x7466,0x6447,0x5424,0x4405,0xa7db,0xb7fa,0x8799,0x97b8,
  0xe75f,0xf77e,0xc71d,0xd73c,0x26d3,0x36f2,0x0691,0x16b0,0x6657,0x7676,0x4615,0x5634,
  0xd94c,0xc96d,0xf90e,0xe92f,0x99c8,0x89e9,0xb98a,0xa9ab,0x5844,0x4865,0x7806,0x6827,
  0x18c0,0x08e1,0x3882,0x28a3,0xcb7d,0xdb5c,0xeb3f,0xfb1e,0x8bf9,0x9bd8,0xabbb,0xbb9a,
  0x4a75,0x5a54,0x6a37,0x7a16,0x0af1,0x1ad0,0x2ab3,0x3a92,0xfd2e,0xed0f,0xdd6c,0xcd4d,
  0xbdaa,0xad8b,0x9de8,0x8dc9,0x7c26,0x6c07,0x5c64,0x4c45,0x3ca2,0x2c83,0x1ce0,0x0cc1,
  0xef1f,0xff3e,0xcf5d,0xdf7c,0xaf9b,0xbfba,0x8fd9,0x9ff8,0x6e17,0x7e36,0x4e55,0x5e74,
  0x2e93,0x3eb2,0x0ed1,0x1ef0]

/-- `crc16_table[n]` (indexing a C array of `uint16_t`). -/
def crc16_tbl (n : Nat) : Nat := crc16_table.getD n 0

/-- One iteration of the loop body of `vtx_crc16`:
`crc = (crc << 8) ^ crc16_table[((crc >> 8) ^ data[i]) & 0xFF]`,
with the assignment to the `uint16_t` variable truncating mod 2^16. -/
def crc16_update (crc b : Nat) : Nat :=
  ((crc <<< 8) ^^^ crc16_tbl (((crc >>> 8) ^^^ b) &&& 0xFF)) % 65536

/-- `vtx_crc16(data, size)`: table-driven CRC with initial value 0xFFFF
(vtx_packet.c). -/
def vtx_crc16 (data : List Nat) : Nat :=
  data.foldl crc16_update 0xFFFF

/-! Reference bit-level CRC-16/CCITT: polynomial 0x1021, MSB-first byte feed,
initial value 0xFFFF, no final XOR.  This is the definition the spec appeals
to when it says the table "MUST be the standard CRC-16/CCITT table"; it is
compared against `vtx_crc16` in the theorems below. -/

/-- One bit of an MSB-first CRC-16/CCITT computation: shift left and, if the
bit shifted out was set, XOR with the polynomial 0x1021; keep 16 bits. -/
def ccitt_bit (c : Nat) : Nat :=
  if c &&& 0x8000 ≠ 0 then ((c <<< 1) ^^^ 0x1021) % 65536
  else (c <<< 1) % 65536

/-- Eight MSB-first CRC bit iterations. -/
def ccitt_bits8 (c : Nat) : Nat :=
  ccitt_bit (ccitt_bit (ccitt_bit (ccitt_bit
    (ccitt_bit (ccitt_bit (ccitt_bit (ccitt_bit c)))))))

/-- Feed one byte, MSB first: XOR the byte into the top of the register and
run eight bit iterations. -/
def ccitt_byte (crc b : Nat) : Nat :=
  ccitt_bits8 ((crc ^^^ (b <<< 8)) % 65536)

/-- The reference CRC-16/CCITT of a byte string (init 0xFFFF, no final XOR). -/
def crc16_ccitt_ref (data : List Nat) : Nat :=
  data.foldl ccitt_byte 0xFFFF

/-! ## Packet header and serialization (vtx_packet.c) -/

/-- `vtx_packet_header_t` (vtx_types.h, release profile).  Fields are `Nat`
with the width bounds of the C types captured by `Header.wf`. -/
structure Header where
  seq_num : Nat
  frame_id : Nat
  frame_type : Nat
  flags : Nat
  frag_index : Nat
  total_frags : Nat
  payload_size : Nat
  checksum : Nat
  deriving Repr, DecidableEq

/-- The C width invariants of the header fields
(uint32 / uint16 / uint8 / uint8 / uint16 / uint16 / uint16 / uint16). -/
def Header.wf (h : Header) : Prop :=
  h.seq_num < 2 ^ 32 ∧ h.frame_id < 2 ^ 16 ∧ h.frame_type < 2 ^ 8 ∧
    h.flags < 2 ^ 8 ∧ h.frag_index < 2 ^ 16 ∧ h.total_frags < 2 ^ 16 ∧
    h.payload_size < 2 ^ 16 ∧ h.checksum < 2 ^ 16

instance (h : Header) : Decidable h.wf := by
  unfold Header.wf; infer_instance

/-- `htons`/`ntohs` on a little-endian host: the 16-bit byte swap. -/
def bswap16 (x : Nat) : Nat := (x % 256) * 256 + (x / 256) % 256

/-- `htonl`/`ntohl` on a little-endian host: the 32-bit byte swap. -/
def bswap32 (x : Nat) : Nat :=
  (x % 256) * 2 ^ 24 + (x / 2 ^ 8 % 256) * 2 ^ 16 +
    (x / 2 ^ 16 % 256) * 2 ^ 8 + (x / 2 ^ 24) % 256

/-- `vtx_packet_serialize_header`: converts every multibyte field of the
(packed) header to network byte order in place; single-byte fields
`frame_type` and `flags` are untouched (vtx_packet.c lines 93-113). -/
def vtx_packet_serialize_header (h : Header) : Header :=
  { seq_num := bswap32 h.seq_num
    frame_id := bswap16 h.frame_id
    frame_type := h.frame_type
    flags := h.flags
    frag_index := bswap16 h.frag_index
    total_frags := bswap16 h.total_frags
    payload_size := bswap16 h.payload_size
    checksum := bswap16 h.checksum }

/-- `vtx_packet_deserialize_header`: converts every multibyte field back to
host byte order in place (vtx_packet.c lines 115-135). -/
def vtx_packet_deserialize_header (h : Header) : Header :=
  { seq_num := bswap32 h.seq_num
    frame_id := bswap16 h.frame_id
    frame_type := h.frame_type
    flags := h.flags
    frag_index := bswap16 h.frag_index
    total_frags := bswap16 h.total_frags
    payload_size := bswap16 h.payload_size
    checksum := bswap16 h.checksum }

/-! ## CRC over a serialized packet (vtx_packet.c) -/

/-- The CRC both `vtx_packet_calc_crc` and `vtx_packet_verify` compute:
`vtx_crc16` over `buf[0..VTX_CRC_OFFSET)` continued over the payload with
the same table step (the shared part of vtx_packet.c lines 146-153 and
173-181). -/
def vtx_packet_full_crc (buf payload : List Nat) : Nat :=
  payload.foldl crc16_update (vtx_crc16 (buf.take VTX_CRC_OFFSET))

/-- `vtx_packet_calc_crc(buf, payload, payload_size)`: computes the CRC and
stores it big-endian into `buf[14..16)`; returns the CRC
(vtx_packet.c lines 137-159).  The buffer is a byte list; the stored 16-bit
value occupies byte 14 (high) and byte 15 (low), which is what `htons`
produces in memory. -/
def vtx_packet_calc_crc (buf payload : List Nat) : Nat × List Nat :=
  (vtx_packet_full_crc buf payload,
   (buf.set 14 (vtx_packet_full_crc buf payload / 256)).set 15
     (vtx_packet_full_crc buf payload % 256))

/-- `vtx_packet_verify(buf, payload, payload_size)`: recomputes the CRC over
`buf[0..14)` and the payload and compares it with the big-endian 16-bit
value stored at `buf[14..16)` (vtx_packet.c lines 161-191). -/
def vtx_packet_verify (buf payload : List Nat) : Bool :=
  vtx_packet_full_crc buf payload == buf.getD 14 0 * 256 + buf.getD 15 0

/-! ## Header validation (vtx_packet.c lines 195-229) -/

/-- `vtx_packet_validate_header`: rejects `frag_index >= total_frags`,
`total_frags == 0`, `payload_size > VTX_MAX_PAYLOAD_SIZE`, and
`frame_type < VTX_FRAME_I || (frame_type > VTX_FRAME_A && frame_type <
VTX_DATA_CONNECT)`; accepts everything else. -/
def vtx_packet_validate_header (h : Header) : Bool :=
  if h.frag_index ≥ h.total_frags then false
  else if h.total_frags = 0 then false
  else if h.payload_size > VTX_MAX_PAYLOAD_SIZE then false
  else if h.frame_type < VTX_FRAME_I ∨
      (h.frame_type > VTX_FRAME_A ∧ h.frame_type < VTX_DATA_CONNECT) then false
  else true

/-- The validation predicate exactly as the spec words it (§3 invariants with
`header_size` read as the 14 CRC-covered bytes, and `frame_type` required to
be one of the enumerated values).  Used only to compare the spec's claim
against `vtx_packet_validate_header`. -/
def spec_validate_claim (h : Header) : Prop :=
  h.frag_index < h.total_frags ∧ 1 ≤ h.total_frags ∧
    h.payload_size ≤ VTX_DEFAULT_MTU - VTX_CRC_OFFSET ∧
    ((VTX_FRAME_I ≤ h.frame_type ∧ h.frame_type ≤ VTX_FRAME_A) ∨
      (VTX_DATA_CONNECT ≤ h.frame_type ∧ h.frame_type ≤ VTX_DATA_STOP))

instance (h : Header) : Decidable (spec_validate_claim h) := by
  unfold spec_validate_claim; infer_instance

/-! ## Fragmentation helpers (vtx_packet.h lines 200-237)

These are `static inline` functions over `size_t`/`uint16_t`; `size_t`
arithmetic is mod `2^64` and the return values are cast to `uint16_t`
(mod `2^16`). -/

/-- `2^64`, the modulus of `size_t` arithmetic. -/
def M64 : Nat := 2 ^ 64

/-- `size_t payload_size = mtu - VTX_PACKET_HEADER_SIZE;` — `mtu` is a
`uint16_t` promoted to `size_t`, so the subtraction wraps mod `2^64`. -/
def frag_payload_capacity (mtu : Nat) : Nat := (mtu + M64 - VTX_PACKET_HEADER_SIZE) % M64

/-- `vtx_packet_calc_frags(frame_size, mtu)` =
`(uint16_t)((frame_size + payload_size - 1) / payload_size)`. -/
def vtx_packet_calc_frags (frame_size mtu : Nat) : Nat :=
  let payload_size := frag_payload_capacity mtu
  ((((frame_size + payload_size) % M64) + M64 - 1) % M64) / payload_size % 65536

/-- `vtx_packet_calc_frag_size(frame_size, frag_index, mtu)`:
`remaining = frame_size - frag_index * payload_size` (wrapping `size_t`
subtraction), result `min(remaining, payload_size)` cast to `uint16_t`. -/
def vtx_packet_calc_frag_size (frame_size frag_index mtu : Nat) : Nat :=
  let payload_size := frag_payload_capacity mtu
  let offset := (frag_index * payload_size) % M64
  let remaining := (frame_size + M64 - offset) % M64
  (if remaining < payload_size then remaining else payload_size) % 65536

/-- `vtx_packet_calc_frag_offset(frag_index, mtu)` =
`(size_t)frag_index * (mtu - VTX_PACKET_HEADER_SIZE)`. -/
def vtx_packet_calc_frag_offset (frag_index mtu : Nat) : Nat :=
  (frag_index * frag_payload_capacity mtu) % M64

/-- `uint64_t` subtraction (`now_ms - send_time_ms` etc.), wrapping mod `2^64`
(arguments are assumed `< 2^64`, as their C types guarantee). -/
def u64_sub (a b : Nat) : Nat := (a + M64 - b) % M64

/-! ## Frames and fragment trackers (vtx_frame.c)

A `vtx_frame_t` owns a payload buffer `data` of `data_capacity` bytes and,
when receiving, a fragment tracker `retran` (a `vtx_frag_header_t` whose
flat `frag` array is modelled as a list of `Frag` records).  Pointers that
may legitimately be NULL (`data`, `retran`) are `Option`s.  The refcount and
the intrusive list node have no observable effect on the operations modelled
here and are omitted. -/

/-- `vtx_frame_state_t`. -/
inductive FrameState where
  | free
  | receiving
  | complete
  | sending
  deriving Repr, DecidableEq

/-- One `vtx_frag_t` tracker slot:
`{frag_index, seq_num, send_time_ms, retrans_count, received}`. -/
structure Frag where
  frag_index : Nat
  seq_num : Nat
  send_time_ms : Nat
  retrans_count : Nat
  received : Bool
  deriving Repr, DecidableEq

instance : Inhabited Frag :=
  ⟨{ frag_index := 0, seq_num := 0, send_time_ms := 0, retrans_count := 0,
     received := false }⟩

/-- `vtx_frame_t`. -/
structure Frame where
  frame_id : Nat
  frame_type : Nat
  total_frags : Nat
  recv_frags : Nat
  data_size : Nat
  data_capacity : Nat
  data : Option (List Nat)
  retran : Option (List Frag)
  state : FrameState
  first_recv_ms : Nat
  last_recv_ms : Nat
  send_time_ms : Nat
  retrans_count : Nat
  deriving Repr, DecidableEq

/-- `vtx_frame_is_complete` (vtx_frame.c lines 598-603; the NULL check does
not arise for a value). -/
def vtx_frame_is_complete (f : Frame) : Bool :=
  f.recv_frags == f.total_frags

/-- `vtx_frame_has_frag` (vtx_frame.c lines 605-611). -/
def vtx_frame_has_frag (f : Frame) (frag_index : Nat) : Bool :=
  match f.retran with
  | none => false
  | some frag =>
    if frag_index ≥ f.total_frags then false
    else (frag.getD frag_index default).received

/-- `vtx_frame_mark_frag_received` (vtx_frame.c lines 635-662).  The wall
clock read for `last_recv_ms` is the explicit `now` argument. -/
def vtx_frame_mark_frag_received (f : Frame) (frag_index now : Nat) :
    Frame × Int :=
  match f.retran with
  | none => (f, VTX_ERR_INVALID_PARAM)
  | some frag =>
    if frag_index ≥ f.total_frags then (f, VTX_ERR_INVALID_PARAM)
    else if (frag.getD frag_index default).received then (f, VTX_OK)
    else
      let f' := { f with
        retran := some (frag.set frag_index
          { frag.getD frag_index default with received := true })
        recv_frags := f.recv_frags + 1
        last_recv_ms := now }
      (if vtx_frame_is_complete f' then { f' with state := .complete } else f',
       VTX_OK)

/-- `vtx_frame_init_recv` (vtx_frame.c lines 555-596).  The tracker is
obtained from the fragment slab pool: classes {1, 32, 128, 256, 512}, so a
request above 512 fails with `NULL` → `VTX_ERR_NO_MEMORY`; the model assumes
host allocation itself succeeds.  All slots start zeroed / unreceived. -/
def vtx_frame_init_recv (f : Frame) (frame_id frame_type total_frags now : Nat) :
    Frame × Int :=
  if total_frags = 0 then (f, VTX_ERR_INVALID_PARAM)
  else if total_frags > 512 then (f, VTX_ERR_NO_MEMORY)
  else
    ({ f with
        frame_id := frame_id
        frame_type := frame_type
        total_frags := total_frags
        recv_frags := 0
        data_size := 0
        state := .receiving
        retrans_count := 0
        retran := some ((List.range total_frags).map fun i =>
          { frag_index := i, received := false, retrans_count := 0,
            send_time_ms := 0, seq_num := 0 })
        first_recv_ms := now
        last_recv_ms := now }, VTX_OK)

/-- `vtx_frame_copyto` (vtx_frame.c lines 514-551).  NULL `frame`/`src` are
`none`; `size` bytes are read from `src`. -/
def vtx_frame_copyto (frame : Option Frame) (offset : Nat)
    (src : Option (List Nat)) (size : Nat) : Nat × Option Frame :=
  match frame with
  | none => (0, none)
  | some f =>
    if src.isNone ∨ size = 0 then (0, some f)
    else
      match f.data with
      | none => (0, some f)
      | some d =>
        if offset ≥ f.data_capacity then (0, some f)
        else if size > f.data_capacity - offset then (0, some f)
        else
          let d' := d.take offset ++ (src.getD []).take size ++
            d.drop (offset + size)
          let new_size := offset + size
          (size, some { f with
            data := some d'
            data_size := if new_size > f.data_size then new_size else f.data_size })

/-- A frame freshly acquired from the media pool
(`vtx_frame_pool_acquire(rx->media_pool)`): refcount 1, state FREE, length 0,
capacity `VTX_MEDIA_FRAME_DATA_SIZE` = 512 KiB.  The C leaves the buffer
contents unspecified; the model takes them to be zero. -/
def media_pool_blank_frame : Frame :=
  { frame_id := 0, frame_type := 0, total_frags := 0, recv_frags := 0,
    data_size := 0, data_capacity := 512 * 1024,
    data := some (List.replicate (512 * 1024) 0), retran := none,
    state := .free, first_recv_ms := 0, last_recv_ms := 0,
    send_time_ms := 0, retrans_count := 0 }

/-- `vtx_frame_queue_find` (vtx_frame.c lines 771-794) returns a borrowed
pointer to the first queued frame with the given id; functionally, the index
of that frame in the queue's list. -/
def vtx_frame_queue_find_idx (q : List Frame) (frame_id : Nat) : Option Nat :=
  q.findIdx? (fun f => f.frame_id == frame_id)

/-! ## Receiver state and reassembly (vtx_rx.c)

`vtx_handle_fragment` needs: the receive queue, the `last_iframe` cache, the
statistics block, the sequence counter, and the configured MTU.  Packet
emissions (`vtx_send_packet`) and the frame callback are modelled as logs:
`acks_sent` records the per-fragment ACK headers sent for I-fragments, and
`delivered` records the `(data, data_size, frame_type)` of each completed
frame handed to the callback. -/

/-- `vtx_rx_stats_t` (the integer counters). -/
structure RxStats where
  total_frames : Nat
  total_i_frames : Nat
  total_p_frames : Nat
  total_packets : Nat
  total_bytes : Nat
  lost_packets : Nat
  dup_packets : Nat
  incomplete_frames : Nat
  deriving Repr, DecidableEq

/-- `vtx_rx_config_t` (the fields the modelled code reads). -/
structure RxConfig where
  mtu : Nat
  frame_timeout_ms : Nat
  data_retrans_timeout_ms : Nat
  data_max_retrans : Nat
  heartbeat_interval_ms : Nat
  deriving Repr, DecidableEq

/-- The receiver state visible to `vtx_handle_fragment` and the RX
retransmission pass. -/
structure RxState where
  config : RxConfig
  recv_queue : List Frame
  data_queue : List Frame
  last_iframe : Option Frame
  stats : RxStats
  seq_num : Nat
  acks_sent : List Header
  delivered : List (List Nat × Nat × Nat)
  deriving Repr, DecidableEq

/-- `vtx_handle_fragment` (vtx_rx.c lines 186-296).  The wall clock is the
explicit `now` argument.  A found frame is updated in place through its
queue position; a frame created on first arrival is appended
(`vtx_frame_queue_push`).  The C `memcpy` into a NULL `data` buffer cannot
arise for pool frames and is modelled as a no-op on the buffer. -/
def vtx_handle_fragment (rx : RxState) (h : Header) (payload : List Nat)
    (now : Nat) : RxState × Int :=
  let entry : (List Frame × Nat) ⊕ Int :=
    match vtx_frame_queue_find_idx rx.recv_queue h.frame_id with
    | some idx => .inl (rx.recv_queue, idx)
    | none =>
      let acquired := media_pool_blank_frame
      let ini := vtx_frame_init_recv acquired h.frame_id h.frame_type
        h.total_frags now
      if ini.2 ≠ VTX_OK then .inr ini.2
      else .inl (rx.recv_queue ++ [ini.1], rx.recv_queue.length)
  match entry with
  | .inr ret => (rx, ret)
  | .inl (q, idx) =>
    let f := q.getD idx media_pool_blank_frame
    if vtx_frame_has_frag f h.frag_index then
      ({ rx with
          recv_queue := q
          stats := { rx.stats with dup_packets := rx.stats.dup_packets + 1 } },
        VTX_OK)
    else
      let offset := vtx_packet_calc_frag_offset h.frag_index rx.config.mtu
      if offset + h.payload_size > f.data_capacity then
        ({ rx with recv_queue := q }, VTX_ERR_OVERFLOW)
      else
        let f1 := { f with
          data := f.data.map (fun d => d.take offset ++
            payload.take h.payload_size ++ d.drop (offset + h.payload_size))
          data_size := f.data_size + h.payload_size }
        let f2 := (vtx_frame_mark_frag_received f1 h.frag_index now).1
        let rx1 :=
          if h.frame_type = VTX_FRAME_I then
            { rx with
                seq_num := rx.seq_num + 1
                acks_sent := rx.acks_sent ++
                  [{ seq_num := rx.seq_num % 2 ^ 32, frame_id := h.frame_id,
                     frame_type := VTX_DATA_ACK, flags := 0,
                     frag_index := h.frag_index, total_frags := 1,
                     payload_size := 0, checksum := 0 }] }
          else rx
        let rx2 := { rx1 with
          stats := { rx1.stats with
            total_packets := rx1.stats.total_packets + 1
            total_bytes := rx1.stats.total_bytes + h.payload_size } }
        if vtx_frame_is_complete f2 then
          let rx3 :=
            if h.frame_type = VTX_FRAME_I then { rx2 with last_iframe := some f2 }
            else rx2
          ({ rx3 with
              recv_queue := (q.set idx f2).eraseIdx idx
              delivered := rx3.delivered ++
                [(f2.data.getD [], f2.data_size, f2.frame_type)]
              stats := { rx3.stats with
                total_frames := rx3.stats.total_frames + 1
                total_i_frames := rx3.stats.total_i_frames +
                  (if f2.frame_type = VTX_FRAME_I then 1 else 0)
                total_p_frames := rx3.stats.total_p_frames +
                  (if f2.frame_type = VTX_FRAME_P then 1 else 0) } },
            VTX_OK)
        else
          ({ rx2 with recv_queue := q.set idx f2 }, VTX_OK)

/-! ## Retransmission scheduler (vtx_process_retrans_queue)

The reliable-data ("DATA") queue pass exists in two copies: vtx_tx.c lines
263-316 reads the endpoint configuration, vtx_rx.c lines 301-355 is the same
loop with the retransmission cap and timeout written as the literals `3` and
`100`.  Each is modelled as a fold over the queue that returns the surviving
queue, the frames removed and released, the packets emitted (header plus
payload), the retransmitted-packet stat increment, and the new sequence
counter. -/

/-- `vtx_tx_config_t` (the fields the modelled code reads). -/
structure TxConfig where
  mtu : Nat
  retrans_timeout_ms : Nat
  max_retrans : Nat
  data_retrans_timeout_ms : Nat
  data_max_retrans : Nat
  connect_timeout_ms : Nat
  connect_max_retrans : Nat
  heartbeat_interval_ms : Nat
  heartbeat_max_miss : Nat
  deriving Repr, DecidableEq

/-- Result of one reliable-data retransmission pass. -/
structure RetransPassResult where
  queue : List Frame
  released : List Frame
  emitted : List (Header × List Nat)
  retrans_packets : Nat
  seq_num : Nat
  deriving Repr, DecidableEq

/-- The USER retransmission packet built for a queued reliable-data frame
(vtx_tx.c lines 294-305 / vtx_rx.c lines 337-348). -/
def user_retrans_packet (seq : Nat) (f : Frame) : Header × List Nat :=
  ({ seq_num := seq % 2 ^ 32, frame_id := f.frame_id,
     frame_type := VTX_DATA_USER, flags := VTX_FLAG_RETRANS,
     frag_index := 0, total_frags := 1, payload_size := f.data_size % 2 ^ 16,
     checksum := 0 },
   (f.data.getD []).take f.data_size)

/-- The reliable-data part of TX `vtx_process_retrans_queue`
(vtx_tx.c lines 263-316): frames at or above `config.data_max_retrans`
retransmissions are removed and released; otherwise frames whose last send
is at least `config.data_retrans_timeout_ms` old are retransmitted with the
RETRANS flag set, a fresh sequence number, bumped `retrans_count` (a
`uint8_t`) and `send_time_ms = now`. -/
def vtx_tx_data_retrans_pass (cfg : TxConfig) (now : Nat) (seq : Nat) :
    List Frame → RetransPassResult
  | [] => ⟨[], [], [], 0, seq⟩
  | f :: rest =>
    if f.retrans_count ≥ cfg.data_max_retrans then
      let r := vtx_tx_data_retrans_pass cfg now seq rest
      ⟨r.queue, f :: r.released, r.emitted, r.retrans_packets, r.seq_num⟩
    else if u64_sub now f.send_time_ms ≥ cfg.data_retrans_timeout_ms then
      let f' := { f with retrans_count := (f.retrans_count + 1) % 256,
                         send_time_ms := now }
      let r := vtx_tx_data_retrans_pass cfg now (seq + 1) rest
      ⟨f' :: r.queue, r.released, user_retrans_packet seq f' :: r.emitted,
        r.retrans_packets + 1, r.seq_num⟩
    else
      let r := vtx_tx_data_retrans_pass cfg now seq rest
      ⟨f :: r.queue, r.released, r.emitted, r.retrans_packets, r.seq_num⟩

/-- The RX `vtx_process_retrans_queue` (vtx_rx.c lines 301-355): the same
loop over `rx->data_queue`, except that the cap and the timeout are the
hard-coded literals `3` and `100` ms — the `cfg` argument (the receiver's
configuration, with its `data_max_retrans` / `data_retrans_timeout_ms`
fields) is available but never read, exactly as in the source.  The RX copy
also does not count a `retrans_packets` statistic (vtx_rx_stats_t has no
such field). -/
def vtx_rx_data_retrans_pass (cfg : RxConfig) (now : Nat) (seq : Nat) :
    List Frame → RetransPassResult
  | [] => ⟨[], [], [], 0, seq⟩
  | f :: rest =>
    if f.retrans_count ≥ 3 then
      let r := vtx_rx_data_retrans_pass cfg now seq rest
      ⟨r.queue, f :: r.released, r.emitted, r.retrans_packets, r.seq_num⟩
    else if u64_sub now f.send_time_ms ≥ 100 then
      let f' := { f with retrans_count := (f.retrans_count + 1) % 256,
                         send_time_ms := now }
      let r := vtx_rx_data_retrans_pass cfg now (seq + 1) rest
      ⟨f' :: r.queue, r.released, user_retrans_packet seq f' :: r.emitted,
        r.retrans_packets, r.seq_num⟩
    else
      let r := vtx_rx_data_retrans_pass cfg now seq rest
      ⟨f :: r.queue, r.released, r.emitted, r.retrans_packets, r.seq_num⟩

/-! ## I-frame per-fragment retransmission (vtx_tx.c lines 318-388) -/

/-- The update applied to one tracker slot of the retained I-frame on a
retransmission sweep: an acknowledged (`received`) slot is skipped; a slot
at or above `config.max_retrans` retransmissions is marked acknowledged and
abandoned; a slot whose last send is at least `config.retrans_timeout_ms`
old is retransmitted.  This is the loop body of vtx_tx.c lines 326-386 with
the emitted packet split out (`vtx_tx_iframe_slot_emits`). -/
def vtx_tx_iframe_slot_step (cfg : TxConfig) (now : Nat) (slot : Frag) : Frag :=
  if slot.received then slot
  else if slot.retrans_count ≥ cfg.max_retrans then { slot with received := true }
  else if u64_sub now slot.send_time_ms ≥ cfg.retrans_timeout_ms then
    { slot with retrans_count := (slot.retrans_count + 1) % 256,
                send_time_ms := now }
  else slot

/-- Whether the slot-step above re-emits the slot's fragment. -/
def vtx_tx_iframe_slot_emits (cfg : TxConfig) (now : Nat) (slot : Frag) : Bool :=
  !slot.received && slot.retrans_count < cfg.max_retrans &&
    u64_sub now slot.send_time_ms ≥ cfg.retrans_timeout_ms

/-- The retransmission packet for I-frame tracker slot `slot`
(vtx_tx.c lines 354-377): offset and size recomputed from the retained
frame's `data_size` in `size_t` arithmetic, RETRANS flag set and LAST_FRAG
added on the final fragment. -/
def iframe_retrans_packet (cfg : TxConfig) (iframe : Frame) (seq : Nat)
    (slot : Frag) : Header × List Nat :=
  let payload_capacity := u64_sub cfg.mtu VTX_PACKET_HEADER_SIZE
  let offset := (slot.frag_index * payload_capacity) % M64
  let psize0 := u64_sub iframe.data_size offset
  let payload_size := if psize0 > payload_capacity then payload_capacity else psize0
  ({ seq_num := seq % 2 ^ 32, frame_id := iframe.frame_id,
     frame_type := iframe.frame_type, frag_index := slot.frag_index,
     total_frags := iframe.total_frags, payload_size := payload_size % 2 ^ 16,
     checksum := 0,
     flags := if slot.frag_index = iframe.total_frags - 1 then
       VTX_FLAG_RETRANS ||| VTX_FLAG_LAST_FRAG else VTX_FLAG_RETRANS },
   ((iframe.data.getD []).drop offset).take payload_size)

/-- The I-frame section of TX `vtx_process_retrans_queue`: walk every
tracker slot of the retained I-frame in order, apply
`vtx_tx_iframe_slot_step`, and emit `iframe_retrans_packet` (with a fresh
sequence number) for each slot that retransmits.  Returns the updated slot
list, the emissions, and the final sequence counter. -/
def vtx_tx_iframe_retrans_pass (cfg : TxConfig) (now : Nat) (iframe : Frame)
    (seq : Nat) : List Frag → List Frag × List (Header × List Nat) × Nat
  | [] => ([], [], seq)
  | slot :: rest =>
    if vtx_tx_iframe_slot_emits cfg now slot then
      let r := vtx_tx_iframe_retrans_pass cfg now iframe (seq + 1) rest
      (vtx_tx_iframe_slot_step cfg now slot :: r.1,
        iframe_retrans_packet cfg iframe seq slot :: r.2.1, r.2.2)
    else
      let r := vtx_tx_iframe_retrans_pass cfg now iframe seq rest
      (vtx_tx_iframe_slot_step cfg now slot :: r.1, r.2.1, r.2.2)

/-! ## TX connection handshake (vtx_tx.c)

The connection-relevant state of `vtx_tx_t`: `connected`,
`connect_send_time_ms` / `connect_retrans_count` (the CONNECTED
retransmission bookkeeping: `connect_send_time_ms > 0` is the
"handshake reply pending" condition, and both fields are cleared on the
transition back to idle), the recorded peer address, and the heartbeat
bookkeeping.  Addresses are abstract (`Nat`). -/

structure TxConn where
  connected : Bool
  connect_send_time_ms : Nat
  connect_retrans_count : Nat
  client_addr : Option Nat
  last_heartbeat_ms : Nat
  heartbeat_miss_count : Nat
  deriving Repr, DecidableEq

/-- The CONNECTED reply header sent by the `vtx_recv` CONNECT case
(vtx_tx.c lines 526-530): `total_frags` is 0 in the constructed header but
`vtx_send_packet` rewrites 0 to 1 on the wire (vtx_tx.c line 137), so the
emitted packet carries 1. -/
def connected_reply_header (seq : Nat) (retrans : Bool) : Header :=
  { seq_num := seq % 2 ^ 32, frame_id := 0, frame_type := VTX_DATA_CONNECTED,
    flags := if retrans then VTX_FLAG_RETRANS else 0, frag_index := 0,
    total_frags := 1, payload_size := 0, checksum := 0 }

/-- An ACK header with the given frame id as emitted by TX. -/
def tx_ack_header (seq frame_id : Nat) : Header :=
  { seq_num := seq % 2 ^ 32, frame_id := frame_id % 2 ^ 16,
    frame_type := VTX_DATA_ACK, flags := 0, frag_index := 0,
    total_frags := 1, payload_size := 0, checksum := 0 }

/-- The connection-state effect of one received packet in `vtx_recv`
(vtx_tx.c lines 474-628), together with the control packets it emits.
The reliable-data-queue and I-frame-tracker consequences of ACKs are
modelled by the retransmission passes above and do not touch `TxConn`;
START/STOP/USER and unknown types leave the connection state unchanged
(USER additionally emits an ACK). -/
def vtx_recv_conn_step (tx : TxConn) (h : Header) (from_addr : Nat)
    (now seq : Nat) : TxConn × List Header :=
  if h.frame_type = VTX_DATA_ACK then
    if h.frame_id = 0 ∧ tx.connected = false then
      ({ tx with connected := true, connect_retrans_count := 0,
                 last_heartbeat_ms := now, heartbeat_miss_count := 0 }, [])
    else (tx, [])
  else if h.frame_type = VTX_DATA_CONNECT then
    ({ tx with client_addr := some from_addr,
               connect_send_time_ms := now, connect_retrans_count := 0 },
     [connected_reply_header seq false])
  else if h.frame_type = VTX_DATA_DISCONNECT then
    ({ tx with connected := false, connect_retrans_count := 0,
               heartbeat_miss_count := 0 }, [tx_ack_header seq 0])
  else if h.frame_type = VTX_DATA_HEARTBEAT then
    ({ tx with last_heartbeat_ms := now, heartbeat_miss_count := 0 },
     [tx_ack_header seq 0])
  else if h.frame_type = VTX_DATA_USER then
    (tx, [tx_ack_header seq h.frame_id])
  else (tx, [])

/-- The CONNECT branch of the blocking `vtx_tx_accept` loop (vtx_tx.c lines
821-840): on receiving a CONNECT packet it records the peer address,
**sets `connected = true` immediately**, sends CONNECTED, and returns
`VTX_OK` — without waiting for any ACK and without arming the CONNECTED
retransmission state. -/
def vtx_tx_accept_on_connect (tx : TxConn) (from_addr : Nat) (seq : Nat) :
    TxConn × List Header × Int :=
  ({ tx with client_addr := some from_addr, connected := true },
   [connected_reply_header seq false], VTX_OK)

/-- The CONNECTED-retransmission section of TX `vtx_process_retrans_queue`
(vtx_tx.c lines 390-419): runs only while not connected with
`connect_send_time_ms > 0`; on budget exhaustion clears both fields (back to
idle), otherwise retransmits CONNECTED at `connect_timeout_ms` intervals. -/
def vtx_tx_connected_retrans_pass (cfg : TxConfig) (tx : TxConn)
    (now seq : Nat) : TxConn × List Header :=
  if tx.connected = false ∧ tx.connect_send_time_ms > 0 then
    if tx.connect_retrans_count ≥ cfg.connect_max_retrans then
      ({ tx with connect_send_time_ms := 0, connect_retrans_count := 0 }, [])
    else if u64_sub now tx.connect_send_time_ms ≥ cfg.connect_timeout_ms then
      ({ tx with connect_retrans_count := (tx.connect_retrans_count + 1) % 256,
                 connect_send_time_ms := now },
       [connected_reply_header seq true])
    else (tx, [])
  else (tx, [])


/-! ## Concrete fixtures

Closed example values used by the witness and counterexample theorems
below. -/

/-- A two-fragment reassembly frame whose fragment 0 has been received. -/
def fixture_frame : Frame :=
  { frame_id := 7, frame_type := 1, total_frags := 2, recv_frags := 1,
    data_size := 4, data_capacity := 8, data := some [1, 2, 3, 4, 0, 0, 0, 0],
    retran := some [
      { frag_index := 0, seq_num := 0, send_time_ms := 0, retrans_count := 0,
        received := true },
      { frag_index := 1, seq_num := 0, send_time_ms := 0, retrans_count := 0,
        received := false }],
    state := .receiving, first_recv_ms := 5, last_recv_ms := 5,
    send_time_ms := 0, retrans_count := 0 }

/-- The tracker slots of `fixture_frame`. -/
def fixture_slots : List Frag :=
  [{ frag_index := 0, seq_num := 0, send_time_ms := 0, retrans_count := 0,
     received := true },
   { frag_index := 1, seq_num := 0, send_time_ms := 0, retrans_count := 0,
     received := false }]

/-- An RX configuration with the default values (and, in particular,
`data_max_retrans = 3` and `data_retrans_timeout_ms = 30`). -/
def fixture_rx_config : RxConfig :=
  { mtu := 1400, frame_timeout_ms := 100, data_retrans_timeout_ms := 30,
    data_max_retrans := 3, heartbeat_interval_ms := 60000 }

/-- An RX configuration whose reliable-data cap is raised to 5 retries and
the timeout left at the default 30 ms. -/
def fixture_rx_config5 : RxConfig :=
  { mtu := 1400, frame_timeout_ms := 100, data_retrans_timeout_ms := 30,
    data_max_retrans := 5, heartbeat_interval_ms := 60000 }

/-- A receiver state whose receive queue holds `fixture_frame`. -/
def fixture_rx : RxState :=
  { config := fixture_rx_config, recv_queue := [fixture_frame],
    data_queue := [], last_iframe := none,
    stats := { total_frames := 0, total_i_frames := 0, total_p_frames := 0,
               total_packets := 1, total_bytes := 4, lost_packets := 0,
               dup_packets := 0, incomplete_frames := 0 },
    seq_num := 3, acks_sent := [], delivered := [] }

/-- The header of a redelivery of fragment 0 of `fixture_frame`. -/
def fixture_header : Header :=
  { seq_num := 9, frame_id := 7, frame_type := 1, flags := 0, frag_index := 0,
    total_frags := 2, payload_size := 4, checksum := 0 }

/-- A reliable-data frame that has been retransmitted 3 times. -/
def fixture_data_frame : Frame :=
  { frame_id := 12, frame_type := VTX_DATA_USER, total_frags := 1,
    recv_frags := 0, data_size := 2, data_capacity := 128,
    data := some [5, 6], retran := none, state := .sending,
    first_recv_ms := 0, last_recv_ms := 0, send_time_ms := 0,
    retrans_count := 3 }

/-- A TX configuration with the default values. -/
def fixture_tx_config : TxConfig :=
  { mtu := 1400, retrans_timeout_ms := 5, max_retrans := 3,
    data_retrans_timeout_ms := 30, data_max_retrans := 3,
    connect_timeout_ms := 100, connect_max_retrans := 3,
    heartbeat_interval_ms := 60000, heartbeat_max_miss := 3 }

/-- The idle TX connection state. -/
def fixture_idle_conn : TxConn :=
  { connected := false, connect_send_time_ms := 0, connect_retrans_count := 0,
    client_addr := none, last_heartbeat_ms := 0, heartbeat_miss_count := 0 }

/-! # Theorems

First general-purpose lemmas (bit arithmetic, CRC table facts, chunked-sum
arithmetic), then one theorem per specification claim, with witnesses and
counterexamples. -/

/-! ## Bit-arithmetic lemmas -/

theorem xor_split {k : Nat} (a c : Nat) {b d : Nat} (hb : b < 2 ^ k) (hd : d < 2 ^ k) :
    (2 ^ k * a + b) ^^^ (2 ^ k * c + d) = 2 ^ k * (a ^^^ c) + (b ^^^ d) := by
  apply Nat.eq_of_testBit_eq
  intro j
  have hbd : b ^^^ d < 2 ^ k := Nat.xor_lt_two_pow hb hd
  simp only [Nat.testBit_xor, Nat.testBit_mul_pow_two_add _ hb,
    Nat.testBit_mul_pow_two_add _ hd, Nat.testBit_mul_pow_two_add _ hbd]
  by_cases hj : j < k <;> simp [hj]

theorem xor_shiftLeft (x y n : Nat) : (x ^^^ y) <<< n = (x <<< n) ^^^ (y <<< n) := by
  apply Nat.eq_of_testBit_eq
  intro j
  simp only [Nat.testBit_shiftLeft, Nat.testBit_xor]
  by_cases hj : j ≥ n <;> simp [hj]

theorem xor_mod_two_pow (x y k : Nat) : (x ^^^ y) % 2 ^ k = x % 2 ^ k ^^^ y % 2 ^ k := by
  apply Nat.eq_of_testBit_eq
  intro j
  simp only [Nat.testBit_mod_two_pow, Nat.testBit_xor]
  by_cases hj : j < k <;> simp [hj]

theorem and_mask_of_lt {x k : Nat} (h : x < 2 ^ k) : x &&& (2 ^ k - 1) = x := by
  apply Nat.eq_of_testBit_eq
  intro j
  rw [Nat.testBit_and]
  by_cases hj : j < k
  · simp [Nat.testBit_two_pow_sub_one, hj]
  · simp [Nat.testBit_two_pow_sub_one, hj, Nat.testBit_lt_two_pow
      (lt_of_lt_of_le h (Nat.pow_le_pow_right (by norm_num) (Nat.le_of_not_lt hj)))]

theorem bswap16_invol {x : Nat} (h : x < 2 ^ 16) : bswap16 (bswap16 x) = x := by
  unfold bswap16
  have h1 : (x % 256 * 256 + x / 256 % 256) % 256 = x / 256 % 256 := by omega
  have h2 : (x % 256 * 256 + x / 256 % 256) / 256 = x % 256 := by omega
  rw [h1, h2]
  omega

theorem bswap32_bytes {a b c d : Nat} (ha : a < 256) (hb : b < 256) (hc : c < 256)
    (hd : d < 256) :
    bswap32 (a * 2 ^ 24 + b * 2 ^ 16 + c * 2 ^ 8 + d) =
      d * 2 ^ 24 + c * 2 ^ 16 + b * 2 ^ 8 + a := by
  unfold bswap32
  have h1 : (a * 2 ^ 24 + b * 2 ^ 16 + c * 2 ^ 8 + d) % 256 = d := by omega
  have h2 : (a * 2 ^ 24 + b * 2 ^ 16 + c * 2 ^ 8 + d) / 2 ^ 8 % 256 = c := by omega
  have h3 : (a * 2 ^ 24 + b * 2 ^ 16 + c * 2 ^ 8 + d) / 2 ^ 16 % 256 = b := by omega
  have h4 : (a * 2 ^ 24 + b * 2 ^ 16 + c * 2 ^ 8 + d) / 2 ^ 24 % 256 = a := by omega
  rw [h1, h2, h3, h4]

theorem bswap32_invol {x : Nat} (h : x < 2 ^ 32) : bswap32 (bswap32 x) = x := by
  have hx : x = x / 2 ^ 24 % 256 * 2 ^ 24 + x / 2 ^ 16 % 256 * 2 ^ 16 +
      x / 2 ^ 8 % 256 * 2 ^ 8 + x % 256 := by omega
  rw [hx, bswap32_bytes (by omega) (by omega) (by omega) (by omega),
    bswap32_bytes (by omega) (by omega) (by omega) (by omega)]

/-! ## CRC-16 table facts -/

theorem ccitt_bit_xor_low {l : Nat} (c : Nat) (hl : l < 2 ^ 15) :
    ccitt_bit (c ^^^ l) = ccitt_bit c ^^^ (l <<< 1) := by
  have h15 : (0x8000 : Nat) = 2 ^ 15 := by norm_num
  have hlb : Nat.testBit l 15 = false := Nat.testBit_lt_two_pow hl
  have hmask : (c ^^^ l) &&& 0x8000 = c &&& 0x8000 := by
    rw [h15, Nat.and_two_pow, Nat.and_two_pow, Nat.testBit_xor, hlb, Bool.xor_false]
  have hl1 : l <<< 1 < 2 ^ 16 := by
    rw [Nat.shiftLeft_eq]; omega
  have hmod : l <<< 1 % 2 ^ 16 = l <<< 1 := Nat.mod_eq_of_lt hl1
  have h16 : (65536 : Nat) = 2 ^ 16 := by norm_num
  unfold ccitt_bit
  rw [hmask]
  by_cases hc : c &&& 0x8000 ≠ 0
  · rw [if_pos hc, if_pos hc, xor_shiftLeft, Nat.xor_assoc,
      Nat.xor_comm (l <<< 1) 0x1021, ← Nat.xor_assoc, h16, xor_mod_two_pow, hmod]
  · rw [if_neg hc, if_neg hc, xor_shiftLeft, h16, xor_mod_two_pow, hmod]

theorem ccitt_bits8_xor_low {l : Nat} (c : Nat) (hl : l < 2 ^ 8) :
    ccitt_bits8 (c ^^^ l) = ccitt_bits8 c ^^^ (l <<< 8) := by
  unfold ccitt_bits8
  rw [ccitt_bit_xor_low c (by omega)]
  rw [ccitt_bit_xor_low _ (by rw [Nat.shiftLeft_eq]; omega), Nat.shiftLeft_shiftLeft]
  rw [ccitt_bit_xor_low _ (by rw [Nat.shiftLeft_eq]; omega), Nat.shiftLeft_shiftLeft]
  rw [ccitt_bit_xor_low _ (by rw [Nat.shiftLeft_eq]; omega), Nat.shiftLeft_shiftLeft]
  rw [ccitt_bit_xor_low _ (by rw [Nat.shiftLeft_eq]; omega), Nat.shiftLeft_shiftLeft]
  rw [ccitt_bit_xor_low _ (by rw [Nat.shiftLeft_eq]; omega), Nat.shiftLeft_shiftLeft]
  rw [ccitt_bit_xor_low _ (by rw [Nat.shiftLeft_eq]; omega), Nat.shiftLeft_shiftLeft]
  rw [ccitt_bit_xor_low _ (by rw [Nat.shiftLeft_eq]; omega), Nat.shiftLeft_shiftLeft]

set_option maxRecDepth 100000 in
theorem crc16_table_length : crc16_table.length = 256 := by decide

set_option maxRecDepth 100000 in
theorem crc16_tbl_lt_small : ∀ n < 256, crc16_tbl n < 65536 := by decide

set_option maxRecDepth 100000 in
theorem crc16_tbl_spec : ∀ n < 256, crc16_tbl n = ccitt_bits8 (n <<< 8) := by decide

theorem crc16_tbl_lt (n : Nat) : crc16_tbl n < 65536 := by
  by_cases h : n < 256
  · exact crc16_tbl_lt_small n h
  · unfold crc16_tbl
    rw [List.getD_eq_default]
    · norm_num
    · rw [crc16_table_length]; omega

theorem ccitt_bit_lt (c : Nat) : ccitt_bit c < 65536 := by
  unfold ccitt_bit
  split <;> exact Nat.mod_lt _ (by norm_num)

theorem ccitt_byte_lt (c b : Nat) : ccitt_byte c b < 65536 := by
  unfold ccitt_byte ccitt_bits8
  exact ccitt_bit_lt _

theorem crc16_update_eq_ccitt {crc b : Nat} (hc : crc < 65536) (hb : b < 256) :
    crc16_update crc b = ccitt_byte crc b := by
  have hhi : crc / 256 < 256 := by omega
  have hlo : crc % 256 < 256 := by omega
  have hxb : crc / 256 ^^^ b < 256 := Nat.xor_lt_two_pow (n := 8) hhi hb
  have htl : crc16_tbl (crc / 256 ^^^ b) < 65536 := crc16_tbl_lt _
  have hRHS : ccitt_byte crc b =
      ccitt_bits8 (2 ^ 8 * (crc / 256 ^^^ b)) ^^^ ((crc % 256) <<< 8) := by
    unfold ccitt_byte
    have hcrc : crc = 2 ^ 8 * (crc / 256) + crc % 256 := by omega
    have hb8 : b <<< 8 = 2 ^ 8 * b + 0 := by simp [Nat.shiftLeft_eq, Nat.mul_comm]
    have e1 : crc ^^^ b <<< 8 = 2 ^ 8 * (crc / 256 ^^^ b) + crc % 256 := by
      conv_lhs => rw [hcrc, hb8]
      rw [xor_split _ _ hlo (by norm_num : (0:Nat) < 2 ^ 8)]
      simp
    have e2 : 2 ^ 8 * (crc / 256 ^^^ b) + crc % 256 < 65536 := by omega
    rw [e1, Nat.mod_eq_of_lt e2]
    have e3 : 2 ^ 8 * (crc / 256 ^^^ b) + crc % 256 =
        2 ^ 8 * (crc / 256 ^^^ b) ^^^ crc % 256 := by
      have h0 := xor_split (k := 8) (crc / 256 ^^^ b) 0
        (b := 0) (d := crc % 256) (by norm_num) hlo
      simpa using h0.symm
    rw [e3, ccitt_bits8_xor_low _ hlo]
  unfold crc16_update
  have hsr : crc >>> 8 = crc / 256 := by
    rw [Nat.shiftRight_eq_div_pow]
  have hff : (0xFF : Nat) = 2 ^ 8 - 1 := by norm_num
  rw [hsr, hff, and_mask_of_lt hxb]
  have hsl : crc <<< 8 = 2 ^ 16 * (crc / 256) + 2 ^ 8 * (crc % 256) := by
    rw [Nat.shiftLeft_eq]
    omega
  have e4 : crc <<< 8 ^^^ crc16_tbl (crc / 256 ^^^ b) =
      2 ^ 16 * (crc / 256) + (2 ^ 8 * (crc % 256) ^^^ crc16_tbl (crc / 256 ^^^ b)) := by
    rw [hsl]
    have h0 := xor_split (k := 16) (crc / 256) 0
      (b := 2 ^ 8 * (crc % 256)) (d := crc16_tbl (crc / 256 ^^^ b))
      (by omega) (by omega)
    simpa using h0
  rw [e4]
  have e5 : 2 ^ 8 * (crc % 256) ^^^ crc16_tbl (crc / 256 ^^^ b) < 65536 :=
    Nat.xor_lt_two_pow (n := 16) (by omega) (by omega)
  have e6 : (2 ^ 16 * (crc / 256) + (2 ^ 8 * (crc % 256) ^^^ crc16_tbl (crc / 256 ^^^ b)))
      % 65536 = 2 ^ 8 * (crc % 256) ^^^ crc16_tbl (crc / 256 ^^^ b) := by
    omega
  rw [e6, hRHS, crc16_tbl_spec _ hxb]
  have e7 : (crc / 256 ^^^ b) <<< 8 = 2 ^ 8 * (crc / 256 ^^^ b) := by
    simp [Nat.shiftLeft_eq, Nat.mul_comm]
  have e8 : (crc % 256) <<< 8 = 2 ^ 8 * (crc % 256) := by
    simp [Nat.shiftLeft_eq, Nat.mul_comm]
  rw [e7, e8, Nat.xor_comm]

theorem vtx_crc16_eq_ref {data : List Nat} (hd : ∀ b ∈ data, b < 256) :
    vtx_crc16 data = crc16_ccitt_ref data := by
  unfold vtx_crc16 crc16_ccitt_ref
  suffices h : ∀ (l : List Nat) (c : Nat), c < 65536 → (∀ b ∈ l, b < 256) →
      l.foldl crc16_update c = l.foldl ccitt_byte c from
    h data 0xFFFF (by norm_num) hd
  intro l
  induction l with
  | nil => intro c _ _; rfl
  | cons x xs ih =>
    intro c hc hl
    simp only [List.foldl_cons]
    rw [crc16_update_eq_ccitt hc (hl x (List.mem_cons_self x xs))]
    exact ih _ (ccitt_byte_lt c x) (fun b hb => hl b (List.mem_cons_of_mem x hb))

/-! ## CRC storage-slot lemmas -/

theorem crc_store_take14 (l : List Nat) (x y : Nat) :
    ((l.set 14 x).set 15 y).take 14 = l.take 14 := by
  rw [List.take_set_of_lt _ _ (by norm_num : 14 < 15), List.set_take,
    List.set_eq_of_length_le]
  rw [List.length_take]
  exact min_le_left _ _

theorem crc_store_getD14 {l : List Nat} (x y : Nat) (hlen : 16 ≤ l.length) :
    ((l.set 14 x).set 15 y).getD 14 0 = x := by
  rw [List.getD_eq_getElem?_getD,
    List.getElem?_set_ne (by norm_num : (15 : Nat) ≠ 14),
    List.getElem?_set_self (by omega)]
  rfl

theorem crc_store_getD15 {l : List Nat} (x y : Nat) (hlen : 16 ≤ l.length) :
    ((l.set 14 x).set 15 y).getD 15 0 = y := by
  rw [List.getD_eq_getElem?_getD,
    List.getElem?_set_self (by simp only [List.length_set]; omega)]
  rfl

/-! ## Fragmentation-helper lemmas -/

theorem frag_payload_capacity_eq {mtu : Nat} (h16 : 16 < mtu) (hm : mtu < 65536) :
    frag_payload_capacity mtu = mtu - 16 := by
  unfold frag_payload_capacity M64 VTX_PACKET_HEADER_SIZE
  omega

theorem calc_frags_eq {S mtu : Nat} (h16 : 16 < mtu) (hm : mtu < 65536)
    (hS : S ≤ (mtu - 16) * 65535) :
    vtx_packet_calc_frags S mtu = (S + (mtu - 16) - 1) / (mtu - 16) := by
  simp only [vtx_packet_calc_frags]
  rw [frag_payload_capacity_eq h16 hm]
  have hSb : S < 2 ^ 33 := by
    have h1 : mtu - 16 ≤ 65519 := by omega
    calc S ≤ (mtu - 16) * 65535 := hS
    _ ≤ 65519 * 65535 := Nat.mul_le_mul_right _ h1
    _ < 2 ^ 33 := by norm_num
  have h1 : (S + (mtu - 16)) % M64 = S + (mtu - 16) := by
    unfold M64; omega
  have h2 : (S + (mtu - 16) + M64 - 1) % M64 = S + (mtu - 16) - 1 := by
    unfold M64; omega
  rw [h1, h2]
  have h3 : (S + (mtu - 16) - 1) / (mtu - 16) < 65536 := by
    rw [Nat.div_lt_iff_lt_mul (by omega)]
    omega
  exact Nat.mod_eq_of_lt h3

theorem calc_frag_size_eq {S mtu : Nat} (i : Nat) (h16 : 16 < mtu)
    (hm : mtu < 65536) (hSb : S < 2 ^ 33) (hoff : i * (mtu - 16) < S) :
    vtx_packet_calc_frag_size S i mtu = min (S - i * (mtu - 16)) (mtu - 16) := by
  simp only [vtx_packet_calc_frag_size]
  rw [frag_payload_capacity_eq h16 hm]
  have hoffb : i * (mtu - 16) < 2 ^ 33 := by
    calc i * (mtu - 16) < S := hoff
    _ < 2 ^ 33 := hSb
  have hoffM : i * (mtu - 16) % M64 = i * (mtu - 16) := by
    unfold M64; omega
  rw [hoffM]
  have hrem : (S + M64 - i * (mtu - 16)) % M64 = S - i * (mtu - 16) := by
    unfold M64; omega
  rw [hrem]
  rcases Nat.lt_or_ge (S - i * (mtu - 16)) (mtu - 16) with hlt | hge
  · rw [if_pos hlt, Nat.min_eq_left (by omega), Nat.mod_eq_of_lt (by omega)]
  · rw [if_neg (by omega), Nat.min_eq_right (by omega), Nat.mod_eq_of_lt (by omega)]

theorem calc_frag_size_le (S i : Nat) {mtu : Nat} (h16 : 16 < mtu)
    (hm : mtu < 65536) :
    vtx_packet_calc_frag_size S i mtu ≤ mtu - 16 := by
  simp only [vtx_packet_calc_frag_size]
  rw [frag_payload_capacity_eq h16 hm]
  split
  · next hlt =>
    exact le_trans (Nat.mod_le _ _) (by omega)
  · next hge =>
    exact le_of_eq (Nat.mod_eq_of_lt (by omega))

theorem sum_min_chunks {pc : Nat} (hpc : 0 < pc) (S : Nat) :
    (∑ i ∈ Finset.range ((S + pc - 1) / pc), min (S - i * pc) pc) = S := by
  induction S using Nat.strong_induction_on with
  | _ S ih =>
    rcases Nat.eq_zero_or_pos S with h0 | hpos
    · subst h0
      rw [show (0 + pc - 1) / pc = 0 from Nat.div_eq_of_lt (by omega)]
      simp
    · by_cases hle : S ≤ pc
      · have hcnt : (S + pc - 1) / pc = 1 :=
          Nat.div_eq_of_lt_le (by omega) (by omega)
        rw [hcnt, Finset.sum_range_one]
        simp [Nat.min_eq_left hle]
      · push_neg at hle
        have hcnt : (S + pc - 1) / pc = (S - pc + pc - 1) / pc + 1 := by
          have he : S + pc - 1 = (S - pc + pc - 1) + pc := by omega
          rw [he, Nat.add_div_right _ hpc]
        rw [hcnt, Finset.sum_range_succ']
        have hterm : ∀ i, min (S - (i + 1) * pc) pc = min (S - pc - i * pc) pc := by
          intro i
          have hmul : (i + 1) * pc = i * pc + pc := by rw [Nat.succ_mul]
          rw [hmul]
          congr 1
          omega
        rw [Finset.sum_congr rfl (fun i _ => hterm i)]
        rw [ih (S - pc) (by omega)]
        have hf0 : min (S - 0 * pc) pc = pc := by
          simp [Nat.min_eq_right (Nat.le_of_lt hle)]
        rw [hf0]
        omega

/-! ## Claim C1 -/

/-- **C1** (confirmed).  For every valid packet header (fields within their
C-type widths), `vtx_packet_deserialize_header` applied after
`vtx_packet_serialize_header` returns the header unchanged, bit-for-bit in
every field. -/
theorem deserialize_serialize_id (h : Header) (hw : h.wf) :
    vtx_packet_deserialize_header (vtx_packet_serialize_header h) = h := by
  cases h with
  | mk s fid t fl fi tf ps ck =>
    obtain ⟨h1, h2, h3, h4, h5, h6, h7, h8⟩ := hw
    simp only [vtx_packet_serialize_header, vtx_packet_deserialize_header,
      Header.mk.injEq]
    exact ⟨bswap32_invol h1, bswap16_invol h2, trivial, trivial, bswap16_invol h5,
      bswap16_invol h6, bswap16_invol h7, bswap16_invol h8⟩

/-- Witness for C1 at a concrete header. -/
theorem deserialize_serialize_id_witness :
    (Header.wf ⟨0x12345678, 0xABCD, 1, 3, 2, 5, 1000, 0xBEEF⟩) ∧
    vtx_packet_deserialize_header (vtx_packet_serialize_header
      ⟨0x12345678, 0xABCD, 1, 3, 2, 5, 1000, 0xBEEF⟩) =
      ⟨0x12345678, 0xABCD, 1, 3, 2, 5, 1000, 0xBEEF⟩ :=
  ⟨by decide, deserialize_serialize_id _ (by decide)⟩

/-! ## Claim C2 -/

/-- **C2** (confirmed).  For every serialized header buffer of at least the
16-byte header region and every payload, `vtx_packet_calc_crc` followed by
`vtx_packet_verify` on the updated buffer returns `true`. -/
theorem calc_crc_then_verify (buf payload : List Nat) (hlen : 16 ≤ buf.length) :
    vtx_packet_verify (vtx_packet_calc_crc buf payload).2 payload = true := by
  unfold vtx_packet_verify vtx_packet_calc_crc
  have hc : vtx_packet_full_crc
      ((buf.set 14 (vtx_packet_full_crc buf payload / 256)).set 15
        (vtx_packet_full_crc buf payload % 256)) payload =
      vtx_packet_full_crc buf payload := by
    unfold vtx_packet_full_crc vtx_crc16 VTX_CRC_OFFSET
    rw [crc_store_take14]
  rw [hc, crc_store_getD14 _ _ hlen, crc_store_getD15 _ _ hlen]
  have hs : vtx_packet_full_crc buf payload / 256 * 256 +
      vtx_packet_full_crc buf payload % 256 = vtx_packet_full_crc buf payload := by
    omega
  rw [hs]
  exact beq_self_eq_true _

/-- Witness for C2 at a concrete buffer and payload. -/
theorem calc_crc_then_verify_witness :
    16 ≤ (List.replicate 16 0 : List Nat).length ∧
    vtx_packet_verify (vtx_packet_calc_crc (List.replicate 16 0) [1, 2, 3]).2
      [1, 2, 3] = true :=
  ⟨by decide, calc_crc_then_verify _ _ (by decide)⟩

/-! ## Claim C3 -/

/-- **C3** (confirmed).  `vtx_crc16` implements CRC-16/CCITT — polynomial
0x1021, initial value 0xFFFF, MSB-first byte feed, no final XOR (the
bit-level reference `crc16_ccitt_ref`) — on every byte string, and on the
ASCII bytes of "123456789" it returns the standard check value 0x29B1. -/
theorem vtx_crc16_implements_ccitt :
    (∀ data : List Nat, (∀ b ∈ data, b < 256) →
      vtx_crc16 data = crc16_ccitt_ref data) ∧
    vtx_crc16 [0x31, 0x32, 0x33, 0x34, 0x35, 0x36, 0x37, 0x38, 0x39] = 0x29B1 :=
  ⟨fun _ hd => vtx_crc16_eq_ref hd, by decide⟩

/-- Witness for C3: the equivalence applied to the test vector. -/
theorem vtx_crc16_implements_ccitt_witness :
    vtx_crc16 [0x31, 0x32, 0x33, 0x34, 0x35, 0x36, 0x37, 0x38, 0x39] =
      crc16_ccitt_ref [0x31, 0x32, 0x33, 0x34, 0x35, 0x36, 0x37, 0x38, 0x39] ∧
    vtx_crc16 [0x31, 0x32, 0x33, 0x34, 0x35, 0x36, 0x37, 0x38, 0x39] = 0x29B1 :=
  ⟨vtx_crc16_implements_ccitt.1 _ (by decide), vtx_crc16_implements_ccitt.2⟩

/-! ## Claim C4 -/

/-- **C4 counterexample.**  The claim "validate accepts exactly the headers
satisfying the §3 invariants with `payload_size ≤ 1400 − 14` and
`frame_type` one of the enumerated values" fails in both directions:
`frame_type = 0x18` (beyond `VTX_DATA_STOP`, not an enumerated value) is
accepted, because the code has no upper bound on the control range; and
`payload_size = 1385 ≤ 1386` is rejected, because the code's bound is
`VTX_DEFAULT_MTU - VTX_PACKET_HEADER_SIZE = 1400 - 16 = 1384`. -/
theorem validate_header_cex :
    vtx_packet_validate_header
      ⟨0, 0, 0x18, 0, 0, 1, 0, 0⟩ = true ∧
    ¬ spec_validate_claim ⟨0, 0, 0x18, 0, 0, 1, 0, 0⟩ ∧
    spec_validate_claim ⟨0, 0, 1, 0, 0, 1, 1385, 0⟩ ∧
    vtx_packet_validate_header ⟨0, 0, 1, 0, 0, 1, 1385, 0⟩ = false := by
  decide

/-- **C4** (corrected).  `vtx_packet_validate_header` returns `true` iff
`frag_index < total_frags`, `total_frags ≥ 1`,
`payload_size ≤ 1384` (= MTU 1400 minus the 16-byte header), and
`frame_type` is at least `VTX_FRAME_I = 1` and not strictly between
`VTX_FRAME_A = 5` and `VTX_DATA_CONNECT = 0x10` — media types 1–5 and every
value `≥ 0x10` (including values above `VTX_DATA_STOP = 0x17`) pass. -/
theorem validate_header_iff (h : Header) :
    vtx_packet_validate_header h = true ↔
      (h.frag_index < h.total_frags ∧ 1 ≤ h.total_frags ∧
        h.payload_size ≤ 1384 ∧
        (1 ≤ h.frame_type ∧ (h.frame_type ≤ 5 ∨ 0x10 ≤ h.frame_type))) := by
  unfold vtx_packet_validate_header VTX_MAX_PAYLOAD_SIZE VTX_DEFAULT_MTU
    VTX_PACKET_HEADER_SIZE VTX_FRAME_I VTX_FRAME_A VTX_DATA_CONNECT
  split_ifs with h1 h2 h3 h4 <;> simp <;> omega

/-- Witness for C4 at a concrete header. -/
theorem validate_header_iff_witness :
    vtx_packet_validate_header ⟨7, 9, 1, 0, 0, 1, 100, 0⟩ = true :=
  (validate_header_iff _).mpr (by decide)

/-! ## Claim C5 -/

/-- **C5 counterexample.**  The fragmentation laws as claimed — for *every*
frame size `S` and every mtu above the header size — fail: the fragment
count is computed in C as a `uint16_t` cast, so for `S = 65536` and
`mtu = 17` (payload capacity 1) the true count 65536 truncates to 0 and the
fragment sizes sum to 0, not `S`. -/
theorem frag_laws_cex :
    ¬ (∀ S mtu : Nat, 16 < mtu →
        (∑ i ∈ Finset.range (vtx_packet_calc_frags S mtu),
          vtx_packet_calc_frag_size S i mtu) = S) := by
  intro hcl
  have h := hcl 65536 17 (by norm_num)
  rw [show vtx_packet_calc_frags 65536 17 = 0 from by decide] at h
  simp at h

/-- **C5** (amended).  For every frame size `S` and mtu `M` with
`16 < M < 2^16`, `0 < S`, and `S ≤ (M − 16) · 65535` (so that the fragment
count fits the `uint16_t` it is cast to): the fragment sizes over
`0 ≤ i < vtx_packet_calc_frags S M` sum to `S`; every fragment size is at
most `M − 16`; and the last fragment's size is strictly positive. -/
theorem frag_laws {S mtu : Nat} (h16 : 16 < mtu) (hm : mtu < 65536)
    (hS0 : 0 < S) (hS : S ≤ (mtu - 16) * 65535) :
    (∑ i ∈ Finset.range (vtx_packet_calc_frags S mtu),
        vtx_packet_calc_frag_size S i mtu) = S ∧
    (∀ i, vtx_packet_calc_frag_size S i mtu ≤ mtu - 16) ∧
    0 < vtx_packet_calc_frag_size S (vtx_packet_calc_frags S mtu - 1) mtu := by
  have hpc : 0 < mtu - 16 := by omega
  have hSb : S < 2 ^ 33 := by
    have h1 : mtu - 16 ≤ 65519 := by omega
    calc S ≤ (mtu - 16) * 65535 := hS
    _ ≤ 65519 * 65535 := Nat.mul_le_mul_right _ h1
    _ < 2 ^ 33 := by norm_num
  have hcnt := calc_frags_eq h16 hm hS
  have hsplit : S + (mtu - 16) - 1 = (S - 1) + (mtu - 16) := by omega
  have hn1 : (S + (mtu - 16) - 1) / (mtu - 16) = (S - 1) / (mtu - 16) + 1 := by
    rw [hsplit, Nat.add_div_right _ hpc]
  have hofflast : (S - 1) / (mtu - 16) * (mtu - 16) < S :=
    Nat.lt_of_le_of_lt (Nat.div_mul_le_self _ _) (by omega)
  refine ⟨?_, fun i => calc_frag_size_le S i h16 hm, ?_⟩
  · rw [hcnt]
    have hpt : ∀ i ∈ Finset.range ((S + (mtu - 16) - 1) / (mtu - 16)),
        vtx_packet_calc_frag_size S i mtu = min (S - i * (mtu - 16)) (mtu - 16) := by
      intro i hi
      rw [Finset.mem_range, hn1] at hi
      have hioff : i * (mtu - 16) < S := by
        calc i * (mtu - 16) ≤ (S - 1) / (mtu - 16) * (mtu - 16) :=
          Nat.mul_le_mul_right _ (by omega)
        _ < S := hofflast
      exact calc_frag_size_eq i h16 hm hSb hioff
    rw [Finset.sum_congr rfl hpt]
    exact sum_min_chunks hpc S
  · rw [hcnt, hn1,
      show (S - 1) / (mtu - 16) + 1 - 1 = (S - 1) / (mtu - 16) from by simp,
      calc_frag_size_eq _ h16 hm hSb hofflast]
    exact lt_min (by omega) hpc

/-- Witness for C5 at the spec's own example: a 4200-byte frame at MTU 1400
fragments as 1386 + 1386 + 1386 + 42. -/
theorem frag_laws_witness :
    (∑ i ∈ Finset.range (vtx_packet_calc_frags 4200 1400),
        vtx_packet_calc_frag_size 4200 i 1400) = 4200 ∧
    (∀ i, vtx_packet_calc_frag_size 4200 i 1400 ≤ 1400 - 16) ∧
    0 < vtx_packet_calc_frag_size 4200 (vtx_packet_calc_frags 4200 1400 - 1) 1400 :=
  frag_laws (by norm_num) (by norm_num) (by norm_num) (by norm_num)

/-! ## Claim C10 -/

/-- **C10** (confirmed).  `vtx_frame_copyto` is atomic with respect to
failure: on a NULL frame, NULL source, zero size, or when
`offset + size` exceeds the frame's `data_capacity`, it returns 0 and the
frame — its buffer and `data_size` included — is unchanged; otherwise (for a
well-formed frame, whose buffer has exactly `data_capacity` bytes, and a
source providing `size` bytes) it splices exactly `size` bytes into the
buffer at `offset`, returns `size`, and sets
`data_size = max(data_size, offset + size)`. -/
theorem frame_copyto_spec :
    (∀ offset size src, vtx_frame_copyto none offset src size = (0, none)) ∧
    (∀ f offset size, vtx_frame_copyto (some f) offset none size = (0, some f)) ∧
    (∀ f offset src, vtx_frame_copyto (some f) offset (some src) 0 = (0, some f)) ∧
    (∀ f offset size src, 0 < size → f.data_capacity < offset + size →
      vtx_frame_copyto (some f) offset (some src) size = (0, some f)) ∧
    (∀ f offset size src d, f.data = some d → 0 < size →
      offset + size ≤ f.data_capacity → d.length = f.data_capacity →
      size ≤ src.length →
      vtx_frame_copyto (some f) offset (some src) size =
        (size, some { f with
          data := some (d.take offset ++ src.take size ++ d.drop (offset + size))
          data_size := max f.data_size (offset + size) })) := by
  refine ⟨fun _ _ _ => rfl, fun f _ _ => rfl, fun f _ _ => by
    simp [vtx_frame_copyto], ?_, ?_⟩
  · intro f offset size src hpos hover
    simp only [vtx_frame_copyto, Option.isNone_some, Bool.false_eq_true,
      false_or]
    rw [if_neg (by omega)]
    split
    · rfl
    · split_ifs with hA hB h3 <;> first | rfl | (exfalso; omega)
  · intro f offset size src d hdata hpos hin hlen hsrc
    simp only [vtx_frame_copyto, Option.isNone_some, Bool.false_eq_true,
      false_or]
    rw [if_neg (by omega)]
    rw [hdata]
    simp only [Option.getD_some]
    rw [if_neg (by omega), if_neg (by omega)]
    simp only [Prod.mk.injEq, Option.some.injEq, true_and]
    congr 1
    rcases Nat.lt_or_ge f.data_size (offset + size) with hlt | hge
    · rw [if_pos (by omega), Nat.max_eq_right (by omega)]
    · rw [if_neg (by omega), Nat.max_eq_left (by omega)]

/-- Witness for C10: the positive case at a concrete frame, and a failing
case at the same frame. -/
theorem frame_copyto_spec_witness :
    vtx_frame_copyto
      (some { frame_id := 1, frame_type := 2, total_frags := 1, recv_frags := 0,
              data_size := 1, data_capacity := 4, data := some [9, 9, 9, 9],
              retran := none, state := .free, first_recv_ms := 0,
              last_recv_ms := 0, send_time_ms := 0, retrans_count := 0 })
      1 (some [7, 8]) 2 =
      (2, some { frame_id := 1, frame_type := 2, total_frags := 1,
                 recv_frags := 0, data_size := 3, data_capacity := 4,
                 data := some [9, 7, 8, 9], retran := none, state := .free,
                 first_recv_ms := 0, last_recv_ms := 0, send_time_ms := 0,
                 retrans_count := 0 }) ∧
    vtx_frame_copyto
      (some { frame_id := 1, frame_type := 2, total_frags := 1, recv_frags := 0,
              data_size := 1, data_capacity := 4, data := some [9, 9, 9, 9],
              retran := none, state := .free, first_recv_ms := 0,
              last_recv_ms := 0, send_time_ms := 0, retrans_count := 0 })
      3 (some [7, 8]) 2 =
      (0, some { frame_id := 1, frame_type := 2, total_frags := 1,
                 recv_frags := 0, data_size := 1, data_capacity := 4,
                 data := some [9, 9, 9, 9], retran := none, state := .free,
                 first_recv_ms := 0, last_recv_ms := 0, send_time_ms := 0,
                 retrans_count := 0 }) := by
  constructor
  · rw [frame_copyto_spec.2.2.2.2 _ _ _ _ [9, 9, 9, 9] rfl (by norm_num)
      (by norm_num) (by norm_num) (by norm_num)]
    decide
  · rw [frame_copyto_spec.2.2.2.1 _ _ _ _ (by norm_num) (by norm_num)]

/-! ## Claim C6 -/

/-- **C6** (confirmed).  Duplicate fragments in reassembly: (1) if the
reassembly frame for `h.frame_id` sits at position `idx` of the receive
queue and already has fragment `h.frag_index` marked received, then
`vtx_handle_fragment` returns `VTX_OK` and the *only* state change is
`dup_packets + 1` — the queue and every frame in it, `last_iframe`, the
emission and delivery logs, the sequence counter and all other statistics
are untouched; (2) a first (non-duplicate) delivery marks the slot through
`vtx_frame_mark_frag_received`, so on a frame with a well-formed tracker a
second delivery of the same `(frame_id, frag_index)` while the frame is
still queued lands in case (1). -/
theorem handle_fragment_duplicate :
    (∀ (rx : RxState) (h : Header) (payload : List Nat) (now idx : Nat)
      (f : Frame),
      vtx_frame_queue_find_idx rx.recv_queue h.frame_id = some idx →
      rx.recv_queue.getD idx media_pool_blank_frame = f →
      vtx_frame_has_frag f h.frag_index = true →
      vtx_handle_fragment rx h payload now =
        ({ rx with stats := { rx.stats with
            dup_packets := rx.stats.dup_packets + 1 } }, VTX_OK)) ∧
    (∀ (f : Frame) (slots : List Frag) (i now : Nat),
      f.retran = some slots → slots.length = f.total_frags →
      i < f.total_frags →
      vtx_frame_has_frag (vtx_frame_mark_frag_received f i now).1 i = true) := by
  constructor
  · intro rx h payload now idx f hfind hf hdup
    simp only [vtx_handle_fragment, hfind, hf, hdup, if_true]
  · intro f slots i now hret hlen hi
    have hneg : ¬ i ≥ f.total_frags := by omega
    simp only [vtx_frame_mark_frag_received, hret]
    rw [if_neg hneg]
    by_cases hrecv : (slots.getD i default).received = true
    · rw [if_pos hrecv]
      simp only [vtx_frame_has_frag, hret]
      rw [if_neg hneg]
      exact hrecv
    · rw [if_neg hrecv]
      split <;>
      · simp only [vtx_frame_has_frag]
        rw [if_neg hneg, List.getD_eq_getElem?_getD,
          List.getElem?_set_self (by omega)]
        rfl

/-- Witness for C6: a queue holding one two-fragment frame whose fragment 0
is already received; redelivering fragment 0 answers `VTX_OK` and bumps
`dup_packets` only.  The second conjunct is witnessed on the same tracker at
fragment 1. -/
theorem handle_fragment_duplicate_witness :
    vtx_handle_fragment fixture_rx fixture_header [1, 2, 3, 4] 6 =
      ({ fixture_rx with stats := { fixture_rx.stats with
          dup_packets := fixture_rx.stats.dup_packets + 1 } }, VTX_OK) ∧
    vtx_frame_has_frag
      ((vtx_frame_mark_frag_received fixture_frame 1 6).1) 1 = true := by
  constructor
  · exact handle_fragment_duplicate.1 fixture_rx fixture_header [1, 2, 3, 4]
      6 0 fixture_frame (by decide) (by decide) (by decide)
  · exact handle_fragment_duplicate.2 fixture_frame fixture_slots 1 6
      (by decide) (by decide) (by decide)

/-! ## Claim C7 -/

theorem u64_sub_eq {a b : Nat} (hb : b ≤ a) (ha : a < 2 ^ 64) :
    u64_sub a b = a - b := by
  unfold u64_sub M64
  omega

theorem tx_pass_spec (cfg : TxConfig) (now seq : Nat) (q : List Frame)
    (hcap : cfg.data_max_retrans ≤ 255) (hnow : now < 2 ^ 64)
    (hsend : ∀ g ∈ q, g.send_time_ms ≤ now) :
    (vtx_tx_data_retrans_pass cfg now seq q).queue =
      (q.filter (fun f => f.retrans_count < cfg.data_max_retrans)).map
        (fun f => if cfg.data_retrans_timeout_ms ≤ now - f.send_time_ms then
          { f with retrans_count := f.retrans_count + 1, send_time_ms := now }
        else f) ∧
    (vtx_tx_data_retrans_pass cfg now seq q).released =
      q.filter (fun f => cfg.data_max_retrans ≤ f.retrans_count) ∧
    (vtx_tx_data_retrans_pass cfg now seq q).emitted.map
        (fun p => (p.1.frame_id, p.1.frame_type, p.1.flags)) =
      (q.filter (fun f => f.retrans_count < cfg.data_max_retrans ∧
          cfg.data_retrans_timeout_ms ≤ now - f.send_time_ms)).map
        (fun f => (f.frame_id, VTX_DATA_USER, VTX_FLAG_RETRANS)) ∧
    (vtx_tx_data_retrans_pass cfg now seq q).retrans_packets =
      (q.filter (fun f => f.retrans_count < cfg.data_max_retrans ∧
          cfg.data_retrans_timeout_ms ≤ now - f.send_time_ms)).length := by
  revert hsend
  induction q generalizing seq with
  | nil =>
    intro _
    simp [vtx_tx_data_retrans_pass]
  | cons f rest ih =>
    intro hsend
    have hf : f.send_time_ms ≤ now := hsend f (List.mem_cons_self f rest)
    have hrest : ∀ g ∈ rest, g.send_time_ms ≤ now :=
      fun g hg => hsend g (List.mem_cons_of_mem f hg)
    by_cases hc : f.retrans_count ≥ cfg.data_max_retrans
    · have hnc : ¬ f.retrans_count < cfg.data_max_retrans := by omega
      obtain ⟨ih1, ih2, ih3, ih4⟩ := ih seq hrest
      simp only [vtx_tx_data_retrans_pass, if_pos hc, List.filter_cons,
        ih1, ih2, ih3, ih4]
      simp [hnc, hc]
    · have hcl : f.retrans_count < cfg.data_max_retrans := by omega
      by_cases hd : now - f.send_time_ms ≥ cfg.data_retrans_timeout_ms
      · obtain ⟨ih1, ih2, ih3, ih4⟩ := ih (seq + 1) hrest
        have hmod : (f.retrans_count + 1) % 256 = f.retrans_count + 1 := by
          omega
        simp only [vtx_tx_data_retrans_pass, if_neg hc,
          u64_sub_eq hf hnow, if_pos hd, List.filter_cons]
        simp [hcl, hc, hd, ih1, ih2, ih3, ih4, hmod, user_retrans_packet,
          VTX_DATA_USER, VTX_FLAG_RETRANS]
      · obtain ⟨ih1, ih2, ih3, ih4⟩ := ih seq hrest
        simp only [vtx_tx_data_retrans_pass, if_neg hc,
          u64_sub_eq hf hnow, if_neg hd, List.filter_cons]
        simp [hcl, hc, hd, ih1, ih2, ih3, ih4]

theorem rx_pass_spec (cfg : RxConfig) (now seq : Nat) (q : List Frame)
    (hnow : now < 2 ^ 64) (hsend : ∀ g ∈ q, g.send_time_ms ≤ now) :
    (vtx_rx_data_retrans_pass cfg now seq q).queue =
      (q.filter (fun f => f.retrans_count < 3)).map
        (fun f => if 100 ≤ now - f.send_time_ms then
          { f with retrans_count := f.retrans_count + 1, send_time_ms := now }
        else f) ∧
    (vtx_rx_data_retrans_pass cfg now seq q).released =
      q.filter (fun f => 3 ≤ f.retrans_count) ∧
    (vtx_rx_data_retrans_pass cfg now seq q).emitted.map
        (fun p => (p.1.frame_id, p.1.frame_type, p.1.flags)) =
      (q.filter (fun f => f.retrans_count < 3 ∧ 100 ≤ now - f.send_time_ms)).map
        (fun f => (f.frame_id, VTX_DATA_USER, VTX_FLAG_RETRANS)) ∧
    (vtx_rx_data_retrans_pass cfg now seq q).retrans_packets = 0 := by
  revert hsend
  induction q generalizing seq with
  | nil =>
    intro _
    simp [vtx_rx_data_retrans_pass]
  | cons f rest ih =>
    intro hsend
    have hf : f.send_time_ms ≤ now := hsend f (List.mem_cons_self f rest)
    have hrest : ∀ g ∈ rest, g.send_time_ms ≤ now :=
      fun g hg => hsend g (List.mem_cons_of_mem f hg)
    by_cases hc : f.retrans_count ≥ 3
    · have hnc : ¬ f.retrans_count < 3 := by omega
      obtain ⟨ih1, ih2, ih3, ih4⟩ := ih seq hrest
      simp only [vtx_rx_data_retrans_pass, if_pos hc, List.filter_cons,
        ih1, ih2, ih3, ih4]
      simp [hnc, hc]
    · have hcl : f.retrans_count < 3 := by omega
      by_cases hd : now - f.send_time_ms ≥ 100
      · obtain ⟨ih1, ih2, ih3, ih4⟩ := ih (seq + 1) hrest
        have hmod : (f.retrans_count + 1) % 256 = f.retrans_count + 1 := by
          omega
        simp only [vtx_rx_data_retrans_pass, if_neg hc,
          u64_sub_eq hf hnow, if_pos hd, List.filter_cons]
        simp [hcl, hc, hd, ih1, ih2, ih3, ih4, hmod, user_retrans_packet,
          VTX_DATA_USER, VTX_FLAG_RETRANS]
      · obtain ⟨ih1, ih2, ih3, ih4⟩ := ih seq hrest
        simp only [vtx_rx_data_retrans_pass, if_neg hc,
          u64_sub_eq hf hnow, if_neg hd, List.filter_cons]
        simp [hcl, hc, hd, ih1, ih2, ih3, ih4]

/-- **C7 counterexample.**  The RX reliable-data retransmission pass ignores
the configured `data_max_retrans` / `data_retrans_timeout_ms`: with a
configuration allowing 5 retries (timeout 30 ms) and a frame at 3
retransmissions with only 10 ms elapsed, the claim predicts the frame is
kept (and not yet retransmitted), but the code removes and releases it —
`vtx_rx_data_retrans_pass` tests the hard-coded literals 3 and 100. -/
theorem data_retrans_rx_cex :
    fixture_data_frame.retrans_count < fixture_rx_config5.data_max_retrans ∧
    10 - fixture_data_frame.send_time_ms <
      fixture_rx_config5.data_retrans_timeout_ms ∧
    (vtx_rx_data_retrans_pass fixture_rx_config5 10 0
      [fixture_data_frame]).released = [fixture_data_frame] ∧
    (vtx_rx_data_retrans_pass fixture_rx_config5 10 0
      [fixture_data_frame]).queue = [] := by
  decide

/-- **C7** (amended).  On a retransmission pass over the reliable-data
queue (`now` after every queued send time, within `uint64`): a frame whose
`retrans_count` has reached the cap is removed from the queue and released;
any other frame due for retransmission gets `retrans_count + 1`,
`send_time_ms = now`, and one USER packet re-emitted with the RETRANS flag;
the remaining frames are untouched.  On TX the cap and timeout are the
configured `data_max_retrans` and `data_retrans_timeout_ms`; on RX they are
the hard-coded literals 3 and 100 ms (the configuration is ignored), and RX
counts no retransmitted-packet statistic. -/
theorem data_retrans_pass_behavior :
    (∀ (cfg : TxConfig) (now seq : Nat) (q : List Frame),
      cfg.data_max_retrans ≤ 255 → now < 2 ^ 64 →
      (∀ g ∈ q, g.send_time_ms ≤ now) →
      (vtx_tx_data_retrans_pass cfg now seq q).queue =
        (q.filter (fun f => f.retrans_count < cfg.data_max_retrans)).map
          (fun f => if cfg.data_retrans_timeout_ms ≤ now - f.send_time_ms then
            { f with retrans_count := f.retrans_count + 1, send_time_ms := now }
          else f) ∧
      (vtx_tx_data_retrans_pass cfg now seq q).released =
        q.filter (fun f => cfg.data_max_retrans ≤ f.retrans_count) ∧
      (vtx_tx_data_retrans_pass cfg now seq q).emitted.map
          (fun p => (p.1.frame_id, p.1.frame_type, p.1.flags)) =
        (q.filter (fun f => f.retrans_count < cfg.data_max_retrans ∧
            cfg.data_retrans_timeout_ms ≤ now - f.send_time_ms)).map
          (fun f => (f.frame_id, VTX_DATA_USER, VTX_FLAG_RETRANS))) ∧
    (∀ (cfg : RxConfig) (now seq : Nat) (q : List Frame),
      now < 2 ^ 64 → (∀ g ∈ q, g.send_time_ms ≤ now) →
      (vtx_rx_data_retrans_pass cfg now seq q).queue =
        (q.filter (fun f => f.retrans_count < 3)).map
          (fun f => if 100 ≤ now - f.send_time_ms then
            { f with retrans_count := f.retrans_count + 1, send_time_ms := now }
          else f) ∧
      (vtx_rx_data_retrans_pass cfg now seq q).released =
        q.filter (fun f => 3 ≤ f.retrans_count) ∧
      (vtx_rx_data_retrans_pass cfg now seq q).emitted.map
          (fun p => (p.1.frame_id, p.1.frame_type, p.1.flags)) =
        (q.filter (fun f => f.retrans_count < 3 ∧
            100 ≤ now - f.send_time_ms)).map
          (fun f => (f.frame_id, VTX_DATA_USER, VTX_FLAG_RETRANS))) := by
  constructor
  · intro cfg now seq q h1 h2 h3
    obtain ⟨e1, e2, e3, _⟩ := tx_pass_spec cfg now seq q h1 h2 h3
    exact ⟨e1, e2, e3⟩
  · intro cfg now seq q h1 h2
    obtain ⟨e1, e2, e3, _⟩ := rx_pass_spec cfg now seq q h1 h2
    exact ⟨e1, e2, e3⟩

/-- Witness for C7: with the default configurations, a frame at the cap of
3 retransmissions is released by both the TX and the RX pass. -/
theorem data_retrans_pass_behavior_witness :
    (vtx_tx_data_retrans_pass fixture_tx_config 50 0
      [fixture_data_frame]).released = [fixture_data_frame] ∧
    (vtx_rx_data_retrans_pass fixture_rx_config 50 0
      [fixture_data_frame]).released = [fixture_data_frame] := by
  constructor
  · rw [(data_retrans_pass_behavior.1 fixture_tx_config 50 0
      [fixture_data_frame] (by decide) (by decide) (by decide)).2.1]
    decide
  · rw [(data_retrans_pass_behavior.2 fixture_rx_config 50 0
      [fixture_data_frame] (by decide) (by decide)).2.1]
    decide

/-! ## Claim C8 -/

theorem iframe_pass_map (cfg : TxConfig) (now : Nat) (iframe : Frame)
    (seq : Nat) (slots : List Frag) :
    (vtx_tx_iframe_retrans_pass cfg now iframe seq slots).1 =
      slots.map (vtx_tx_iframe_slot_step cfg now) := by
  induction slots generalizing seq with
  | nil => rfl
  | cons s rest ih =>
    simp only [vtx_tx_iframe_retrans_pass]
    split
    · simp [ih]
    · simp [ih]

theorem iframe_pass_emits (cfg : TxConfig) (now : Nat) (iframe : Frame)
    (seq : Nat) (slots : List Frag) :
    ((vtx_tx_iframe_retrans_pass cfg now iframe seq slots).2.1).map
        (fun p => p.1.frag_index) =
      (slots.filter (vtx_tx_iframe_slot_emits cfg now)).map
        (fun s => s.frag_index) := by
  induction slots generalizing seq with
  | nil => rfl
  | cons s rest ih =>
    simp only [vtx_tx_iframe_retrans_pass, List.filter_cons]
    by_cases he : vtx_tx_iframe_slot_emits cfg now s = true
    · simp [he, ih, iframe_retrans_packet]
    · simp [he, ih]

/-- **C8** (confirmed).  Per-fragment retransmission of the retained
I-frame: the sweep is slot-wise (the updated tracker is the element-wise
map of the slot step, so a slot's fate depends only on that slot — reaching
the cap on one slot cannot change any other slot); a slot at or above
`max_retrans` with no ACK is marked acknowledged (abandoned) and emits
nothing; an acknowledged slot is never changed or re-emitted by this or any
later sweep; and the fragments re-emitted by a sweep are exactly the
unacknowledged, uncapped, timed-out slots. -/
theorem iframe_retrans_per_slot :
    (∀ (cfg : TxConfig) (now : Nat) (iframe : Frame) (seq : Nat)
      (slots : List Frag),
      (vtx_tx_iframe_retrans_pass cfg now iframe seq slots).1 =
        slots.map (vtx_tx_iframe_slot_step cfg now)) ∧
    (∀ (cfg : TxConfig) (now : Nat) (s : Frag), s.received = false →
      cfg.max_retrans ≤ s.retrans_count →
      vtx_tx_iframe_slot_step cfg now s = { s with received := true } ∧
      vtx_tx_iframe_slot_emits cfg now s = false) ∧
    (∀ (cfg : TxConfig) (now : Nat) (s : Frag), s.received = true →
      vtx_tx_iframe_slot_step cfg now s = s ∧
      vtx_tx_iframe_slot_emits cfg now s = false) ∧
    (∀ (cfg : TxConfig) (now : Nat) (s : Frag) (n : Nat), s.received = true →
      (vtx_tx_iframe_slot_step cfg now)^[n] s = s) ∧
    (∀ (cfg : TxConfig) (now : Nat) (iframe : Frame) (seq : Nat)
      (slots : List Frag),
      ((vtx_tx_iframe_retrans_pass cfg now iframe seq slots).2.1).map
          (fun p => p.1.frag_index) =
        (slots.filter (vtx_tx_iframe_slot_emits cfg now)).map
          (fun s => s.frag_index)) := by
  refine ⟨iframe_pass_map, ?_, ?_, ?_, iframe_pass_emits⟩
  · intro cfg now s hrecv hcap
    constructor
    · simp [vtx_tx_iframe_slot_step, hrecv, hcap]
    · simp [vtx_tx_iframe_slot_emits, hrecv]
      omega
  · intro cfg now s hrecv
    constructor
    · simp [vtx_tx_iframe_slot_step, hrecv]
    · simp [vtx_tx_iframe_slot_emits, hrecv]
  · intro cfg now s n hrecv
    induction n with
    | zero => rfl
    | succ n ih =>
      rw [Function.iterate_succ_apply]
      have hstep : vtx_tx_iframe_slot_step cfg now s = s := by
        simp [vtx_tx_iframe_slot_step, hrecv]
      rw [hstep, ih]

/-- Witness for C8: with the default TX configuration, a capped
unacknowledged slot is marked received and emits nothing, and the iterate
fact at n = 3 on an acknowledged slot. -/
theorem iframe_retrans_per_slot_witness :
    vtx_tx_iframe_slot_step fixture_tx_config 9
      { frag_index := 4, seq_num := 0, send_time_ms := 0, retrans_count := 3,
        received := false } =
      { frag_index := 4, seq_num := 0, send_time_ms := 0, retrans_count := 3,
        received := true } ∧
    vtx_tx_iframe_slot_emits fixture_tx_config 9
      { frag_index := 4, seq_num := 0, send_time_ms := 0, retrans_count := 3,
        received := false } = false ∧
    (vtx_tx_iframe_slot_step fixture_tx_config 9)^[3]
      { frag_index := 2, seq_num := 0, send_time_ms := 0, retrans_count := 1,
        received := true } =
      { frag_index := 2, seq_num := 0, send_time_ms := 0, retrans_count := 1,
        received := true } := by
  refine ⟨?_, ?_, ?_⟩
  · exact (iframe_retrans_per_slot.2.1 fixture_tx_config 9 _ (by decide)
      (by decide)).1
  · exact (iframe_retrans_per_slot.2.1 fixture_tx_config 9 _ (by decide)
      (by decide)).2
  · exact iframe_retrans_per_slot.2.2.2.1 fixture_tx_config 9 _ 3 (by decide)

/-! ## Claim C9 -/

/-- **C9 counterexample.**  The claim "TX never becomes Connected directly
upon receiving a CONNECT packet" is false for the blocking accept path:
`vtx_tx_accept`, on a CONNECT packet, records the peer and sets
`connected = true` immediately, returning success without waiting for any
ACK. -/
theorem tx_accept_connect_cex :
    fixture_idle_conn.connected = false ∧
    (vtx_tx_accept_on_connect fixture_idle_conn 42 0).1.connected = true ∧
    (vtx_tx_accept_on_connect fixture_idle_conn 42 0).1.client_addr = some 42 ∧
    (vtx_tx_accept_on_connect fixture_idle_conn 42 0).2.2 = VTX_OK := by
  decide

/-- **C9** (amended).  In the poll-loop receive path (`vtx_recv`), TX does
not become Connected upon CONNECT: the CONNECT case records the source as
the peer, emits CONNECTED, arms the handshake-reply-pending state
(`connect_send_time_ms = now`, retransmission count 0) and leaves
`connected` unchanged; `connected` can only turn true on an ACK with
`frame_id = 0`; that ACK (while unconnected) completes the handshake and
resets the heartbeat bookkeeping; and if the CONNECTED retry budget is
exhausted first, the retransmission pass clears the pending state (back to
idle) without emitting.  (The blocking `vtx_tx_accept` path, by contrast,
connects immediately — see the counterexample.) -/
theorem tx_handshake_behavior :
    (∀ (tx : TxConn) (h : Header) (a now seq : Nat),
      h.frame_type = VTX_DATA_CONNECT →
      (vtx_recv_conn_step tx h a now seq).1.connected = tx.connected ∧
      (vtx_recv_conn_step tx h a now seq).1.client_addr = some a ∧
      (vtx_recv_conn_step tx h a now seq).1.connect_send_time_ms = now ∧
      (vtx_recv_conn_step tx h a now seq).1.connect_retrans_count = 0 ∧
      (vtx_recv_conn_step tx h a now seq).2 =
        [connected_reply_header seq false]) ∧
    (∀ (tx : TxConn) (h : Header) (a now seq : Nat),
      (vtx_recv_conn_step tx h a now seq).1.connected = true →
      tx.connected = true ∨ (h.frame_type = VTX_DATA_ACK ∧ h.frame_id = 0)) ∧
    (∀ (tx : TxConn) (h : Header) (a now seq : Nat),
      h.frame_type = VTX_DATA_ACK → h.frame_id = 0 → tx.connected = false →
      (vtx_recv_conn_step tx h a now seq).1 =
        { tx with connected := true, connect_retrans_count := 0,
                  last_heartbeat_ms := now, heartbeat_miss_count := 0 } ∧
      (vtx_recv_conn_step tx h a now seq).2 = []) ∧
    (∀ (cfg : TxConfig) (tx : TxConn) (now seq : Nat),
      tx.connected = false → 0 < tx.connect_send_time_ms →
      cfg.connect_max_retrans ≤ tx.connect_retrans_count →
      vtx_tx_connected_retrans_pass cfg tx now seq =
        ({ tx with connect_send_time_ms := 0, connect_retrans_count := 0 },
         [])) := by
  refine ⟨?_, ?_, ?_, ?_⟩
  · intro tx h a now seq hct
    simp [vtx_recv_conn_step, hct, VTX_DATA_CONNECT, VTX_DATA_ACK]
  · intro tx h a now seq hc
    by_cases hb : tx.connected = true
    · exact Or.inl hb
    · right
      simp only [vtx_recv_conn_step] at hc
      split_ifs at hc <;> simp_all
  · intro tx h a now seq hty hid hnc
    simp [vtx_recv_conn_step, hty, hid, hnc]
  · intro cfg tx now seq hnc hpend hmax
    simp [vtx_tx_connected_retrans_pass, hnc, hpend, hmax]

/-- Witness for C9: from the idle state, CONNECT via the receive path
leaves `connected = false` and arms the pending state; a subsequent ACK
with frame id 0 connects; and an exhausted retry budget clears a pending
state. -/
theorem tx_handshake_behavior_witness :
    (vtx_recv_conn_step fixture_idle_conn
      { seq_num := 0, frame_id := 0, frame_type := VTX_DATA_CONNECT,
        flags := 0, frag_index := 0, total_frags := 1, payload_size := 0,
        checksum := 0 } 42 7 0).1.connected = false ∧
    (vtx_recv_conn_step
      { connected := false, connect_send_time_ms := 7,
        connect_retrans_count := 0, client_addr := some 42,
        last_heartbeat_ms := 0, heartbeat_miss_count := 0 }
      { seq_num := 1, frame_id := 0, frame_type := VTX_DATA_ACK, flags := 0,
        frag_index := 0, total_frags := 1, payload_size := 0, checksum := 0 }
      42 9 1).1.connected = true ∧
    vtx_tx_connected_retrans_pass fixture_tx_config
      { connected := false, connect_send_time_ms := 7,
        connect_retrans_count := 3, client_addr := some 42,
        last_heartbeat_ms := 0, heartbeat_miss_count := 0 } 500 2 =
      ({ connected := false, connect_send_time_ms := 0,
         connect_retrans_count := 0, client_addr := some 42,
         last_heartbeat_ms := 0, heartbeat_miss_count := 0 }, []) := by
  refine ⟨?_, ?_, ?_⟩
  · rw [(tx_handshake_behavior.1 fixture_idle_conn _ 42 7 0 (by decide)).1]
    decide
  · rw [(tx_handshake_behavior.2.2.1 _ _ 42 9 1 (by decide) (by decide)
      (by decide)).1]
  · rw [tx_handshake_behavior.2.2.2 fixture_tx_config _ 500 2 (by decide)
      (by decide) (by decide)]

end VTX
